import Mathlib

/-!
Verification of the jax2tf "no-XLA" lowering engine
(`jax/experimental/jax2tf/impl_no_xla.py`).

The source lowers a family of generalized array operators (convolution,
dot-general, sliding-window reduction, gather, scatter, dynamic slice) to
calls on a narrower target instruction set (TensorFlow ops).  This file is a
shallow embedding of that code: tensors are modelled as a shape together
with a total indexing function, machine integers as `Int` with explicit
two's-complement wrapping where the code casts to int32, Python exceptions
as `Except`, and the external TF primitives either as faithful Lean models
(where a claim's truth depends on them) or as parameters (where it does
not).
-/

set_option maxRecDepth 10000

/-- Element-type tags mirroring the TF dtypes the source inspects. -/
inductive TfType where
  | bool'
  | int8
  | int32
  | int64
  | uint32
  | uint64
  | float16
  | float32
  | float64
  | complex64
  | complex128
  deriving DecidableEq, Repr

/-- Padding scheme, mirroring the strings "VALID" / "SAME" / "EXPLICIT"
used by the source. -/
inductive PadType where
  | VALID
  | SAME
  | EXPLICIT
  deriving DecidableEq, Repr

/-- Out-of-bounds handling modes of `lax.GatherScatterMode`. -/
inductive GatherScatterMode where
  | CLIP
  | FILL_OR_DROP
  | PROMISE_IN_BOUNDS
  deriving DecidableEq, Repr

/-- A TF tensor: a shape, a dtype tag, and a total indexing function
(row-major multi-index to element).  Only indices elementwise below the
shape are meaningful; `toList` below enumerates exactly those. -/
structure Tensor (α : Type) where
  shape : List Nat
  dtype : TfType
  data : List Nat → α

/-- Enumerate, in row-major order, all multi-indices of a shape. -/
def enumIdx : List Nat → List (List Nat)
  | [] => [[]]
  | d :: ds => (List.range d).flatMap (fun i => (enumIdx ds).map (i :: ·))

/-- All elements of a tensor, in row-major order. -/
def Tensor.toList (t : Tensor α) : List α :=
  (enumIdx t.shape).map t.data

/-- Extensional equality of tensors: same shape and same elements at every
in-range index. -/
def Teq (a b : Tensor α) : Prop :=
  a.shape = b.shape ∧ a.toList = b.toList

instance [DecidableEq α] (a b : Tensor α) : Decidable (Teq a b) := by
  unfold Teq; infer_instance

theorem Teq.refl (a : Tensor α) : Teq a a := ⟨rfl, rfl⟩

theorem Teq.trans {a b c : Tensor α} (h₁ : Teq a b) (h₂ : Teq b c) : Teq a c :=
  ⟨h₁.1.trans h₂.1, h₁.2.trans h₂.2⟩

theorem Teq.symm {a b : Tensor α} (h : Teq a b) : Teq b a :=
  ⟨h.1.symm, h.2.symm⟩

theorem length_of_mem_enumIdx {sh : List Nat} {idx : List Nat}
    (h : idx ∈ enumIdx sh) : idx.length = sh.length := by
  induction sh generalizing idx with
  | nil => simp [enumIdx] at h; simp [h]
  | cons d ds ih =>
    simp [enumIdx] at h
    obtain ⟨i, _, rest, hrest, hidx⟩ := h
    subst hidx
    simp [ih hrest]

theorem teq_of_pointwise {a b : Tensor α} (hsh : a.shape = b.shape)
    (h : ∀ idx ∈ enumIdx a.shape, a.data idx = b.data idx) : Teq a b := by
  refine ⟨hsh, ?_⟩
  unfold Tensor.toList
  rw [← hsh]
  exact List.map_congr_left h

/-- `True` on `Except.ok`. -/
def exceptIsOk : Except ε α → Bool
  | .ok _ => true
  | .error _ => false

/-- `True` on `Except.error`. -/
def exceptIsError : Except ε α → Bool
  | .ok _ => false
  | .error _ => true

/-- Holds when the computation succeeded and its tensor satisfies `p`. -/
def ExceptOkP (p : Tensor α → Prop) : Except ε (Tensor α) → Prop
  | .ok t => p t
  | .error _ => False

/-- Shape and row-major elements of a successful result (used to state
concrete scenarios decidably). -/
def exceptShapeToList : Except ε (Tensor α) → Option (List Nat × List α)
  | .ok t => some (t.shape, t.toList)
  | .error _ => none

/-! ### Basic tensor operations (models of the TF ops the source drives) -/

/-- `tf.math.invert_permutation`: `inv[perm[i]] = i`. -/
def invertPermutation (perm : List Nat) : List Nat :=
  (List.range perm.length).map (fun i => perm.indexOf i)

/-- `tf.transpose(t, perm)`: output axis `k` is input axis `perm[k]`, so the
input index at output index `idx` is `idx` rearranged through the inverse
permutation. -/
def Tensor.transpose (t : Tensor α) (perm : List Nat) : Tensor α :=
  { shape := perm.map (fun i => t.shape.getD i 0)
    dtype := t.dtype
    data := fun idx => t.data ((invertPermutation perm).map (fun p => idx.getD p 0)) }

/-- Insert element `a` at position `k` of a list. -/
def insertAt (k : Nat) (a : α) (l : List α) : List α :=
  l.take k ++ a :: l.drop k

/-- Remove the element at position `k` of a list. -/
def removeAt (k : Nat) (l : List α) : List α :=
  l.take k ++ l.drop (k + 1)

/-- `tf.expand_dims(t, k)` for a non-negative axis `k`. -/
def Tensor.expandDims (t : Tensor α) (k : Nat) : Tensor α :=
  { shape := insertAt k 1 t.shape
    dtype := t.dtype
    data := fun idx => t.data (removeAt k idx) }

/-- `tf.expand_dims(t, -1)`: append a unit axis at the end. -/
def Tensor.expandLast (t : Tensor α) : Tensor α :=
  { shape := t.shape ++ [1]
    dtype := t.dtype
    data := fun idx => t.data idx.dropLast }

/-- `tf.squeeze(t, k)` for a non-negative axis `k` (the axis must have
extent 1 in the source's uses). -/
def Tensor.squeezeAt (t : Tensor α) (k : Nat) : Tensor α :=
  { shape := removeAt k t.shape
    dtype := t.dtype
    data := fun idx => t.data (insertAt k 0 idx) }

/-- `tf.squeeze(t, -1)`: drop the (unit) last axis. -/
def Tensor.squeezeLast (t : Tensor α) : Tensor α :=
  { shape := t.shape.dropLast
    dtype := t.dtype
    data := fun idx => t.data (idx ++ [0]) }

/-- Elementwise combination of two same-shaped tensors (models `tf.add`,
`tf.multiply`, `tf.minimum`, `tf.maximum` in the same-shape case the source
exercises; TF broadcasting is not needed there). -/
def tfMap2 (f : α → α → α) (a b : Tensor α) : Tensor α :=
  { shape := a.shape, dtype := a.dtype, data := fun idx => f (a.data idx) (b.data idx) }

/-- Multiply every element by a scalar (models `tensor * scalar`). -/
def scalarMul (c : ℚ) (t : Tensor ℚ) : Tensor ℚ :=
  { shape := t.shape, dtype := t.dtype, data := fun idx => t.data idx * c }

/-- `tf.broadcast_to(tf.constant(c, dtype), shape)` for a scalar constant. -/
def broadcastConst (c : α) (dtype : TfType) (shape : List Nat) : Tensor α :=
  { shape := shape, dtype := dtype, data := fun _ => c }

/-! ### IndexClampPolicy (`_clip`, source lines 579-596) -/

/-- Two's-complement wrap of an integer to 32 bits, modelling
`tf.cast(x, tf.int32)`. -/
def tfCastInt32 (x : Int) : Int :=
  (x + 2 ^ 31) % 2 ^ 32 - 2 ^ 31

/-- `tf.clip_by_value(t, lo, hi) = min(max(t, lo), hi)`. -/
def clipByValue (t lo hi : Int) : Int :=
  min (max t lo) hi

/-- Three-list pointwise zip (Python `zip` semantics: truncate to the
shortest list). -/
def zipWith3 (f : α → β → γ → δ) : List α → List β → List γ → List δ
  | a :: as_, b :: bs, c :: cs => f a b c :: zipWith3 f as_ bs cs
  | _, _, _ => []

/-- Source `_clip`: clamp each start index into `[0, max_index - slice_size]`,
with both bounds and start indices cast to int32 exactly as the source does. -/
def tf_clip (max_indices start_indices slice_sizes : List Int) : List Int :=
  zipWith3
    (fun m s k => clipByValue (tfCastInt32 s) 0 (tfCastInt32 (m - k)))
    max_indices start_indices slice_sizes

/-! ### Convolution feature validation (`_validate_conv_features`,
source lines 189-209) -/

/-- Source `_validate_conv_features`: raises (here: returns `Except.error`)
on unsupported combinations of convolution features.  Each Python `raise`
exits the function, so the sequence of checks becomes a nested `if` chain;
the `(depthwise and atrous) and not transpose: pass / elif count > 1: raise`
pair becomes the single guarded check below. -/
def validate_conv_features (is_transpose is_atrous is_depthwise : Bool)
    (feature_group_count batch_group_count : Nat)
    (preferred_element_type : Option TfType) (lhs_dtype : TfType) :
    Except String Unit :=
  if feature_group_count > 1 ∧ ¬ is_depthwise then
    .error "Grouped convolutions are unsupported"
  else if ¬ (is_depthwise ∧ is_atrous ∧ ¬ is_transpose) ∧
      ([is_depthwise, is_atrous, is_transpose].count true) > 1 then
    .error "Can only do one of depthwise, atrous and transposed convolutions"
  else if batch_group_count ≠ 1 then
    .error "Unimplemented support for batch_group_count not equal to 1"
  else if preferred_element_type.isSome ∧ preferred_element_type ≠ some lhs_dtype then
    .error "Unimplemented support for preferred_element_type"
  else .ok ()

/-- Claim C5 (theorem below): the exact failure condition of
`_validate_conv_features`, stated the way the claim words it. -/
def convFeatureFailureCond (is_transpose is_atrous is_depthwise : Bool)
    (feature_group_count batch_group_count : Nat)
    (preferred_element_type : Option TfType) (lhs_dtype : TfType) : Prop :=
  (feature_group_count > 1 ∧ is_depthwise = false) ∨
  (2 ≤ [is_depthwise, is_atrous, is_transpose].count true ∧
    ¬ (is_depthwise = true ∧ is_atrous = true ∧ is_transpose = false)) ∨
  batch_group_count ≠ 1 ∨
  (∃ t, preferred_element_type = some t ∧ t ≠ lhs_dtype)

/-- **C5.** Convolution feature validation fails exactly when:
`feature_group_count > 1` without depthwise; two or more of
{depthwise, atrous, transpose} hold, except depthwise+atrous without
transpose; `batch_group_count ≠ 1`; or a preferred output element type is
requested that differs from the input element type. -/
theorem validate_conv_features_fails_iff
    (is_transpose is_atrous is_depthwise : Bool)
    (feature_group_count batch_group_count : Nat)
    (preferred_element_type : Option TfType) (lhs_dtype : TfType) :
    exceptIsError (validate_conv_features is_transpose is_atrous is_depthwise
      feature_group_count batch_group_count preferred_element_type lhs_dtype)
      = true ↔
    convFeatureFailureCond is_transpose is_atrous is_depthwise
      feature_group_count batch_group_count preferred_element_type lhs_dtype := by
  cases is_transpose <;> cases is_atrous <;> cases is_depthwise <;>
    cases preferred_element_type <;>
    simp only [validate_conv_features, convFeatureFailureCond] <;>
    split_ifs <;>
    simp_all [exceptIsError, List.count_cons]

/-! ### Dynamic slice (`_dynamic_slice`, source lines 825-833) -/

/-- `tf.slice(t, begins, sizes)`: element at `idx` comes from `begins + idx`
in the operand (in the source's uses `begins` is already clamped
non-negative). -/
def Tensor.slice (t : Tensor α) (begins : List Int) (sizes : List Nat) : Tensor α :=
  { shape := sizes
    dtype := t.dtype
    data := fun idx => t.data (List.zipWith (fun b u => (b + (u : Int)).toNat) begins idx) }

/-- The clamped start indices `_dynamic_slice` computes via `_clip`. -/
def dynamicSliceStarts (operand : Tensor ℚ) (start_indices : List Int)
    (slice_sizes : List Nat) : List Int :=
  tf_clip (operand.shape.map (Nat.cast : Nat → Int)) start_indices
    (slice_sizes.map (Nat.cast : Nat → Int))

/-- Source `_dynamic_slice`: stack the scalar start indices, clamp them with
`_clip` against the operand shape, and slice. -/
def dynamic_slice (operand : Tensor ℚ) (start_indices : List Int)
    (slice_sizes : List Nat) : Tensor ℚ :=
  operand.slice (dynamicSliceStarts operand start_indices slice_sizes) slice_sizes

theorem zipWith3_getD (f : α → β → γ → δ) (as_ : List α) (bs : List β) (cs : List γ)
    (i : Nat) (da : α) (db : β) (dc : γ) (dd : δ)
    (h1 : i < as_.length) (h2 : i < bs.length) (h3 : i < cs.length) :
    (zipWith3 f as_ bs cs).getD i dd = f (as_.getD i da) (bs.getD i db) (cs.getD i dc) := by
  induction as_ generalizing bs cs i with
  | nil => simp at h1
  | cons a as_ ih =>
    cases bs with
    | nil => simp at h2
    | cons b bs =>
      cases cs with
      | nil => simp at h3
      | cons c cs =>
        cases i with
        | zero => simp [zipWith3]
        | succ n =>
          simp only [zipWith3, List.getD_cons_succ]
          exact ih bs cs n (by simpa using h1) (by simpa using h2) (by simpa using h3)

theorem getD_map_of_lt (f : α → β) (l : List α) (i : Nat) (d : α)
    (h : i < l.length) : (l.map f).getD i (f d) = f (l.getD i d) := by
  induction l generalizing i with
  | nil => simp at h
  | cons a l ih =>
    cases i with
    | zero => simp
    | succ n =>
      have h' : n < l.length := by simpa using h
      simpa using ih n h'

theorem tfCastInt32_eq {x : Int} (h1 : -(2 ^ 31) ≤ x) (h2 : x < 2 ^ 31) :
    tfCastInt32 x = x := by
  unfold tfCastInt32
  norm_num
  omega

/-- **C2.** For every dynamic-slice call, on each axis with operand length
`m`, requested start `s` and slice size `k` (with `k ≤ m`, and the int32
casts in `_clip` not overflowing), the effective start index equals
`max 0 (min s (m - k))`, so every element the slice reads lies in `[0, m)`;
the result has the requested shape and its element at `idx` is the operand
element at `clamped_start + idx`. -/
theorem dynamic_slice_clamps (operand : Tensor ℚ) (starts : List Int)
    (sizes : List Nat) (i : Nat)
    (hlen1 : starts.length = operand.shape.length)
    (hlen2 : sizes.length = operand.shape.length)
    (hi : i < operand.shape.length)
    (hk : sizes.getD i 0 ≤ operand.shape.getD i 0)
    (hm : (operand.shape.getD i 0 : Int) < 2 ^ 31)
    (hs1 : -(2 ^ 31) ≤ starts.getD i 0) (hs2 : starts.getD i 0 < 2 ^ 31) :
    (dynamicSliceStarts operand starts sizes).getD i 0 =
      max 0 (min (starts.getD i 0)
        ((operand.shape.getD i 0 : Int) - (sizes.getD i 0 : Int))) ∧
    (0 ≤ (dynamicSliceStarts operand starts sizes).getD i 0 ∧
      ∀ j : Nat, j < sizes.getD i 0 →
        (dynamicSliceStarts operand starts sizes).getD i 0 + (j : Int)
          < (operand.shape.getD i 0 : Int)) ∧
    (dynamic_slice operand starts sizes).shape = sizes ∧
    ∀ idx : List Nat, (dynamic_slice operand starts sizes).data idx =
      operand.data (List.zipWith (fun b u => (b + (u : Int)).toNat)
        (dynamicSliceStarts operand starts sizes) idx) := by
  have hgd : (dynamicSliceStarts operand starts sizes).getD i 0 =
      clipByValue (tfCastInt32 (starts.getD i 0)) 0
        (tfCastInt32 ((operand.shape.getD i 0 : Int) - (sizes.getD i 0 : Int))) := by
    have h1 : i < (operand.shape.map (Nat.cast : Nat → Int)).length := by
      simp only [List.length_map]; omega
    have h2 : i < starts.length := by omega
    have h3 : i < (sizes.map (Nat.cast : Nat → Int)).length := by
      simp only [List.length_map]; omega
    unfold dynamicSliceStarts tf_clip
    rw [zipWith3_getD _ _ _ _ i (((0 : Nat) : Int)) 0 (((0 : Nat) : Int)) 0 h1 h2 h3]
    rw [getD_map_of_lt _ operand.shape i 0 hi,
      getD_map_of_lt _ sizes i 0 (by omega)]
  have hk' : ((sizes.getD i 0 : Nat) : Int) ≤ ((operand.shape.getD i 0 : Nat) : Int) := by
    exact_mod_cast hk
  have hmk1 : (0 : Int) ≤ (operand.shape.getD i 0 : Int) - (sizes.getD i 0 : Int) := by
    omega
  have hcast1 : tfCastInt32 (starts.getD i 0) = starts.getD i 0 :=
    tfCastInt32_eq hs1 hs2
  have hcast2 : tfCastInt32 ((operand.shape.getD i 0 : Int) - (sizes.getD i 0 : Int)) =
      (operand.shape.getD i 0 : Int) - (sizes.getD i 0 : Int) := by
    refine tfCastInt32_eq (by omega) (by omega)
  rw [hcast1, hcast2] at hgd
  refine ⟨?_, ⟨?_, ?_⟩, rfl, fun idx => rfl⟩
  · rw [hgd]; unfold clipByValue; omega
  · rw [hgd]; unfold clipByValue; omega
  · intro j hj
    rw [hgd]; unfold clipByValue
    have : (j : Int) < (sizes.getD i 0 : Int) := by exact_mod_cast hj
    omega

/-- Concrete operand for the claimed dynamic-slice scenario: a 1-D array of
length 10 whose element at index `i` is `i`. -/
def iotaTen : Tensor ℚ :=
  { shape := [10], dtype := .float32, data := fun idx => ((idx.headD 0 : Nat) : ℚ) }

/-- Witness for C2 (Scenario 3): dynamic-slice on a length-10 1-D array with
start 8 and size 5 clamps the start to 5 and returns the elements at
indices `[5, 10)`. -/
theorem dynamic_slice_clamps_witness :
    (dynamicSliceStarts iotaTen [8] [5]).getD 0 0 = 5 ∧
    (dynamic_slice iotaTen [8] [5]).toList = [5, 6, 7, 8, 9] := by
  constructor
  · exact ((dynamic_slice_clamps iotaTen [8] [5] 0 (by decide) (by decide)
      (by decide) (by decide) (by decide) (by decide) (by decide)).1).trans (by decide)
  · decide

/-! ### PaddingClassifier (`pads_to_padtype`, source lines 92-97, and
`_conv_transpose_pads_to_padtype`, source lines 114-147) -/

/-- Ceiling division on naturals. -/
def ceilDiv (a b : Nat) : Nat := (a + b - 1) / b

/-- Modelled from the spec: `lax.padtype_to_pads` (jax library code not under
`src/`).  Canonical VALID padding is all zeros; canonical SAME padding makes
the output size `⌈input/stride⌉` per axis: the total pad is
`max 0 ((out - 1) * stride + window - input)`, split as
`(total / 2, total - total / 2)`.  Axes combine pointwise, truncating to the
shortest list. -/
def padtype_to_pads (in_shape window_shape window_strides : List Nat)
    (padding : PadType) : List (Int × Int) :=
  match padding with
  | .SAME =>
    zipWith3 (fun d w s =>
      let out : Int := ceilDiv d s
      let total : Int := max 0 ((out - 1) * (s : Int) + (w : Int) - (d : Int))
      (total / 2, total - total / 2)) in_shape window_shape window_strides
  | _ => in_shape.map (fun _ => ((0 : Int), (0 : Int)))

/-- Source `pads_to_padtype`: try "VALID" then "SAME", comparing the
canonical padding list elementwise with the supplied one; anything else is
"EXPLICIT". -/
def pads_to_padtype (in_shape window_shape window_strides : List Nat)
    (padding : List (Int × Int)) : PadType :=
  if padtype_to_pads in_shape window_shape window_strides .VALID = padding then
    .VALID
  else if padtype_to_pads in_shape window_shape window_strides .SAME = padding then
    .SAME
  else .EXPLICIT

/-- **C3 counterexample.** With shape 4, window 1, stride 1 the canonical
SAME padding is `(0, 0)`, which coincides with the canonical VALID padding;
supplying exactly the canonical SAME padding then classifies as VALID, not
SAME, so the claim's SAME clause fails as stated. -/
theorem pads_to_padtype_same_counterexample :
    padtype_to_pads [4] [1] [1] .SAME = [(0, 0)] ∧
    pads_to_padtype [4] [1] [1] [(0, 0)] = PadType.VALID ∧
    pads_to_padtype [4] [1] [1] [(0, 0)] ≠ PadType.SAME := by
  decide

/-- **C3 (amended).** The classifier returns VALID whenever the supplied
padding equals the canonical VALID padding; it returns SAME whenever the
supplied padding equals the canonical SAME padding *and* that differs from
the canonical VALID padding (VALID wins ties); and it returns EXPLICIT for
any other padding list. -/
theorem pads_to_padtype_amended (in_shape window strides : List Nat)
    (padding : List (Int × Int)) :
    (padding = padtype_to_pads in_shape window strides .VALID →
      pads_to_padtype in_shape window strides padding = .VALID) ∧
    (padding = padtype_to_pads in_shape window strides .SAME ∧
      padding ≠ padtype_to_pads in_shape window strides .VALID →
      pads_to_padtype in_shape window strides padding = .SAME) ∧
    (padding ≠ padtype_to_pads in_shape window strides .VALID ∧
      padding ≠ padtype_to_pads in_shape window strides .SAME →
      pads_to_padtype in_shape window strides padding = .EXPLICIT) := by
  unfold pads_to_padtype
  refine ⟨fun h => ?_, fun h => ?_, fun h => ?_⟩
  · rw [if_pos h.symm]
  · rw [if_neg (fun hv => h.2 hv.symm), if_pos h.1.symm]
  · rw [if_neg (fun hv => h.1 hv.symm), if_neg (fun hs => h.2 hs.symm)]

/-- Witness for the amended C3: shape 5, window 3, stride 2 has canonical
SAME padding `(1, 1)`, distinct from VALID, and classifies as SAME. -/
theorem pads_to_padtype_amended_witness :
    pads_to_padtype [5] [3] [2] [(1, 1)] = PadType.SAME :=
  (pads_to_padtype_amended [5] [3] [2] [(1, 1)]).2.1 (by decide)

/-! ### ScatterLowering (`convert_scatter_jax_to_tf`, source lines 874-995) -/

/-- `lax.ScatterDimensionNumbers`. -/
structure ScatterDimensionNumbers where
  update_window_dims : List Nat
  inserted_window_dims : List Nat
  scatter_dims_to_operand_dims : List Nat
  deriving DecidableEq, Repr

/-- Source `shift_axes_forward`: move the given axes to the front (or back
when `forward` is false), or apply the inverse of that permutation when
`inverse` is true. -/
def shift_axes_forward (operand : Tensor α) (axes : List Nat)
    (inverse : Bool := false) (forward : Bool := true) : Tensor α :=
  let other_axes := (List.range operand.shape.length).filter
    (fun i => ! axes.contains i)
  let fwd_order := if forward then axes ++ other_axes else other_axes ++ axes
  let order := if inverse then invertPermutation fwd_order else fwd_order
  operand.transpose order

/-- `tf.gather_nd`: the trailing axis of `indices` holds index vectors of
length `depth`; the result concatenates the gathered sub-tensors over the
outer axes of `indices`. -/
def tfGatherNd (t : Tensor α) (indices : Tensor Int) : Tensor α :=
  let depth := indices.shape.getLastD 0
  let outer := indices.shape.dropLast
  { shape := outer ++ t.shape.drop depth
    dtype := t.dtype
    data := fun idx =>
      let o := idx.take outer.length
      let row := (List.range depth).map (fun j => (indices.data (o ++ [j])).toNat)
      t.data (row ++ idx.drop outer.length) }

/-- `tf.tensor_scatter_nd_update`: positions named by an index row take the
corresponding update row (the last matching row wins; the source only uses
this with unique indices). -/
def tfTensorScatterNdUpdate (t : Tensor α) (indices : Tensor Int)
    (updates : Tensor α) : Tensor α :=
  let depth := indices.shape.getLastD 0
  let outer := indices.shape.dropLast
  { shape := t.shape
    dtype := t.dtype
    data := fun idx =>
      match (enumIdx outer).reverse.find?
          (fun o => (List.range depth).map
            (fun j => (indices.data (o ++ [j])).toNat) = idx.take depth) with
      | some o => updates.data (o ++ idx.drop depth)
      | none => t.data idx }

/-- The elements of one segment, shared by the models of the
`tf.math.unsorted_segment_*` ops. -/
def segmentElems {α : Type} (updates : Tensor α) (segIds : Tensor Int)
    (idx : List Nat) : List α :=
  ((List.range (updates.shape.headD 0)).filter
      (fun j => segIds.data [j] == ((idx.headD 0 : Nat) : Int))).map
    (fun j => updates.data (j :: idx.drop 1))

/-- `tf.math.unsorted_segment_sum`. -/
def tfUnsortedSegmentSum {α : Type} [Add α] [Zero α] (updates : Tensor α)
    (segIds : Tensor Int) (numSegments : Nat) : Tensor α :=
  { shape := numSegments :: updates.shape.drop 1
    dtype := updates.dtype
    data := fun idx => (segmentElems updates segIds idx).sum }

/-- `tf.math.unsorted_segment_prod`. -/
def tfUnsortedSegmentProd {α : Type} [Mul α] [One α] (updates : Tensor α)
    (segIds : Tensor Int) (numSegments : Nat) : Tensor α :=
  { shape := numSegments :: updates.shape.drop 1
    dtype := updates.dtype
    data := fun idx => (segmentElems updates segIds idx).prod }

/-- `tf.math.unsorted_segment_min` (empty segments default to 0 here instead
of the dtype's largest value; the lowering never evaluates them). -/
def tfUnsortedSegmentMin {α : Type} [Min α] [Inhabited α] (updates : Tensor α)
    (segIds : Tensor Int) (numSegments : Nat) : Tensor α :=
  { shape := numSegments :: updates.shape.drop 1
    dtype := updates.dtype
    data := fun idx =>
      let l := segmentElems updates segIds idx
      l.foldr min (l.headD default) }

/-- `tf.math.unsorted_segment_max` (same remark as for the min model). -/
def tfUnsortedSegmentMax {α : Type} [Max α] [Inhabited α] (updates : Tensor α)
    (segIds : Tensor Int) (numSegments : Nat) : Tensor α :=
  { shape := numSegments :: updates.shape.drop 1
    dtype := updates.dtype
    data := fun idx =>
      let l := segmentElems updates segIds idx
      l.foldr max (l.headD default) }

/-- Source inner `_sparse_scatter`: scatter specialised to indexing from the
front axes; unique indices go through gather/update/scatter, non-unique
indices of depth 1 through the segment op. -/
def sparse_scatter_front {α : Type} (update_op : Tensor α → Tensor α → Tensor α)
    (unsorted_segment_op : Option (Tensor α → Tensor Int → Nat → Tensor α))
    (operand : Tensor α) (scatter_indices : Tensor Int) (updates : Tensor α)
    (unique_indices : Bool) : Except String (Tensor α) :=
  -- Infer unique indices from lack of batch dimension
  let unique_indices := unique_indices || (scatter_indices.shape.length == 1)
  if unique_indices then
    let suboperand := tfGatherNd operand scatter_indices
    let updated_suboperand := update_op suboperand updates
    -- add a batch dim if none exist
    if scatter_indices.shape.length == 1 then
      .ok (tfTensorScatterNdUpdate operand (scatter_indices.expandDims 0)
        (updated_suboperand.expandDims 0))
    else
      .ok (tfTensorScatterNdUpdate operand scatter_indices updated_suboperand)
  else
    match unsorted_segment_op with
    | some segOp =>
      if scatter_indices.shape.getLastD 0 == 1 then
        -- If only indexing into the first dimension, it's a segment op
        let operand_update := segOp updates scatter_indices.squeezeLast
          (operand.shape.headD 0)
        .ok (update_op operand operand_update)
      else
        .error "Scatter supports unique indices, and non-unique indices with indexing into only one dimension for add, mul, min, max"
    | none =>
      .error "Scatter supports unique indices, and non-unique indices with indexing into only one dimension for add, mul, min, max"

/-- Source `sparse_scatter` (the wrapper `convert_scatter_jax_to_tf`
returns): validates dtype, dimension numbers and mode, shifts the indexed
axes of the operand to the front and the window axes of the updates to the
back, runs the front-axis implementation, and inverse-shifts the result. -/
def sparse_scatter {α : Type} (update_op : Tensor α → Tensor α → Tensor α)
    (unsorted_segment_op : Option (Tensor α → Tensor Int → Nat → Tensor α))
    (operand : Tensor α) (scatter_indices : Tensor Int) (updates : Tensor α)
    (dimension_numbers : ScatterDimensionNumbers)
    (indices_are_sorted unique_indices : Bool) (mode : GatherScatterMode) :
    Except String (Tensor α) :=
  let ud := dimension_numbers.update_window_dims
  let wd := dimension_numbers.inserted_window_dims
  let sd := dimension_numbers.scatter_dims_to_operand_dims
  let dtype := operand.dtype
  if dtype = .bool' ∨ dtype = .complex64 then
    .error "Scatter does not support operands of this type"
  else if ¬ wd = sd then
    .error "Complex scatters are not supported"
  else if ¬ mode = .PROMISE_IN_BOUNDS then
    .error "Only scatter mode PROMISE_IN_BOUNDS is supported"
  else
    -- shift update value axes to the back, so batch are at the front
    let updates_shifted := shift_axes_forward updates ud false false
    (sparse_scatter_front update_op unsorted_segment_op
        (shift_axes_forward operand sd) scatter_indices updates_shifted
        unique_indices).map
      (fun y => shift_axes_forward y sd true)

/-- Registered lowering for `lax.scatter_p`: just replace with the update. -/
def scatter_lowering {α : Type} : Tensor α → Tensor Int → Tensor α →
    ScatterDimensionNumbers → Bool → Bool → GatherScatterMode →
    Except String (Tensor α) :=
  sparse_scatter (fun _x y => y) none

/-- Registered lowering for `lax.scatter_add_p`. -/
def scatter_add_lowering {α : Type} [Add α] [Zero α] : Tensor α → Tensor Int →
    Tensor α → ScatterDimensionNumbers → Bool → Bool → GatherScatterMode →
    Except String (Tensor α) :=
  sparse_scatter (tfMap2 (· + ·)) (some tfUnsortedSegmentSum)

/-- Registered lowering for `lax.scatter_mul_p`. -/
def scatter_mul_lowering {α : Type} [Mul α] [One α] : Tensor α → Tensor Int →
    Tensor α → ScatterDimensionNumbers → Bool → Bool → GatherScatterMode →
    Except String (Tensor α) :=
  sparse_scatter (tfMap2 (· * ·)) (some tfUnsortedSegmentProd)

/-- Registered lowering for `lax.scatter_min_p`. -/
def scatter_min_lowering {α : Type} [Min α] [Inhabited α] : Tensor α → Tensor Int →
    Tensor α → ScatterDimensionNumbers → Bool → Bool → GatherScatterMode →
    Except String (Tensor α) :=
  sparse_scatter (tfMap2 min) (some tfUnsortedSegmentMin)

/-- Registered lowering for `lax.scatter_max_p`. -/
def scatter_max_lowering {α : Type} [Max α] [Inhabited α] : Tensor α → Tensor Int →
    Tensor α → ScatterDimensionNumbers → Bool → Bool → GatherScatterMode →
    Except String (Tensor α) :=
  sparse_scatter (tfMap2 max) (some tfUnsortedSegmentMax)

/-- Concrete scatter-add operand for C6: length-4 zero array tagged complex128. -/
def c6operand : Tensor Int :=
  { shape := [4], dtype := .complex128, data := fun _ => 0 }

/-- Concrete index array `[[0], [1]]` for C6. -/
def c6indices : Tensor Int :=
  { shape := [2, 1], dtype := .int32
    data := fun idx => (([0, 1] : List Int).getD (idx.headD 0) 0) }

/-- Concrete updates `[5, 7]` for C6. -/
def c6updates : Tensor Int :=
  { shape := [2], dtype := .complex128
    data := fun idx => (([5, 7] : List Int).getD (idx.headD 0) 0) }

/-- **C6 counterexample.** A scatter-add whose operand element type is
complex128 — a complex type — is *not* rejected: the dtype check only looks
for `tf.bool` and `tf.complex64`, and the lowering succeeds. -/
theorem scatter_complex128_not_rejected :
    exceptIsOk (scatter_add_lowering c6operand c6indices c6updates
      ⟨[], [0], [0]⟩ false false .PROMISE_IN_BOUNDS) = true := by
  rfl

/-- **C6 (amended).** Every scatter lowering fails when
`inserted_window_dims ≠ scatter_dims_to_operand_dims`, when the mode is not
promise-in-bounds, or when the operand element type is boolean or
*single-precision* complex (complex64); complex128 is not checked. -/
theorem scatter_validation_rejects
    {α : Type} (update_op : Tensor α → Tensor α → Tensor α)
    (unsorted_segment_op : Option (Tensor α → Tensor Int → Nat → Tensor α))
    (operand : Tensor α) (scatter_indices : Tensor Int) (updates : Tensor α)
    (dn : ScatterDimensionNumbers) (sorted unique : Bool)
    (mode : GatherScatterMode)
    (h : operand.dtype = .bool' ∨ operand.dtype = .complex64 ∨
      dn.inserted_window_dims ≠ dn.scatter_dims_to_operand_dims ∨
      mode ≠ .PROMISE_IN_BOUNDS) :
    exceptIsError (sparse_scatter update_op unsorted_segment_op operand
      scatter_indices updates dn sorted unique mode) = true := by
  by_cases h1 : operand.dtype = .bool' ∨ operand.dtype = .complex64
  · simp [sparse_scatter, h1, exceptIsError]
  · by_cases h2 : dn.inserted_window_dims = dn.scatter_dims_to_operand_dims
    · by_cases h3 : mode = .PROMISE_IN_BOUNDS
      · tauto
      · simp [sparse_scatter, h1, h2, h3, exceptIsError]
    · simp [sparse_scatter, h1, h2, exceptIsError]

/-- Witness for the amended C6: scatter-replace with
`inserted_window_dims = [0]` but `scatter_dims_to_operand_dims = [1]` is
rejected. -/
theorem scatter_validation_rejects_witness :
    exceptIsError (scatter_lowering c6operand c6indices c6updates
      ⟨[], [0], [1]⟩ false false .PROMISE_IN_BOUNDS) = true :=
  scatter_validation_rejects (fun _x y => y) none c6operand c6indices c6updates
    ⟨[], [0], [1]⟩ false false .PROMISE_IN_BOUNDS
    (Or.inr (Or.inr (Or.inl (by decide))))

/-- Scatter-add scenario operand: a zero-initialized length-4 array. -/
def c9operand : Tensor Int :=
  { shape := [4], dtype := .float32, data := fun _ => 0 }

/-- Scatter-add scenario index array `[[0], [0], [2]]`. -/
def c9indices : Tensor Int :=
  { shape := [3, 1], dtype := .int32
    data := fun idx => (([0, 0, 2] : List Int).getD (idx.headD 0) 0) }

/-- Scatter-add scenario updates `[1, 2, 3]`. -/
def c9updates : Tensor Int :=
  { shape := [3], dtype := .float32
    data := fun idx => (([1, 2, 3] : List Int).getD (idx.headD 0) 0) }

/-- **C9.** Scatter-add on a zero-initialized length-4 array with indices
`[[0], [0], [2]]` and updates `[1, 2, 3]` (indices not asserted unique,
promise-in-bounds, trivial dimension numbers) accumulates duplicates via
the segment-sum path and returns `[3, 0, 3, 0]`. -/
theorem scatter_add_duplicate_indices_scenario :
    exceptShapeToList (scatter_add_lowering c9operand c9indices c9updates
      ⟨[], [0], [0]⟩ false false .PROMISE_IN_BOUNDS) =
      some ([4], [3, 0, 3, 0]) := by
  decide

/-! ### GatherLowering (`_gather` and its strategy chain,
source lines 599-822) -/

/-- `lax.GatherDimensionNumbers`. -/
structure GatherDimensionNumbers where
  offset_dims : List Nat
  collapsed_slice_dims : List Nat
  start_index_map : List Nat
  deriving DecidableEq, Repr

/-- Source `GatherArgs`: the immutable bundle handed to every strategy. -/
structure GatherArgs (α : Type) where
  operand : Tensor α
  start_indices : Tensor Int
  dnums : GatherDimensionNumbers
  slice_sizes : List Nat
  op_shape : List Nat
  start_indices_shape : List Nat
  out_shape : List Nat

/-- Source `_pre_gather_for_scalar_indexing`: accepts exactly when the index
array has rank 1. -/
def pre_gather_for_scalar_indexing (args : GatherArgs α) : Except String Unit :=
  if args.start_indices_shape.length ≠ 1 then
    .error "start_indices shape should be 1"
  else .ok ()

/-- Source `_pre_gather_for_multidim_indexing`: accepts "take along one
axis" patterns; symbolic shape comparisons become plain equality on the
concrete shapes modelled here. -/
def pre_gather_for_multidim_indexing (args : GatherArgs α) : Except String Unit :=
  let op_shape := args.op_shape
  let start_index_map := args.dnums.start_index_map
  let collapsed_slice_dims := args.dnums.collapsed_slice_dims
  let offset_dims := args.dnums.offset_dims
  if ¬ (1 ≤ op_shape.length ∧ start_index_map.length = 1 ∧
        collapsed_slice_dims.length = 1 ∧
        collapsed_slice_dims.headD 0 = start_index_map.headD 0 ∧
        offset_dims.length = op_shape.length - 1) then
    .error "unsupported dimension numbers"
  else if ¬ args.start_indices_shape.getLastD 0 = 1 then
    .error "start_indices shape of minus one should be 1"
  else
    -- Guess the axis
    let axis := collapsed_slice_dims.headD 0
    let index_dims := args.start_indices_shape.length - 1
    let expected_offset_dims :=
      List.range axis ++ List.range' (axis + index_dims) (op_shape.length - 1 - axis)
    if offset_dims ≠ expected_offset_dims then
      .error "unsupported offset_dims"
    else
      let expected_slice_sizes := op_shape.take axis ++ 1 :: op_shape.drop (axis + 1)
      if ¬ args.slice_sizes = expected_slice_sizes then
        .error "unsupported slice_sizes"
      else .ok ()

/-- Source `_pre_gather_with_batch_dims`: accepts exactly one batch output
axis, an identity `start_index_map`, and agreeing batch extents. -/
def pre_gather_with_batch_dims (args : GatherArgs α) : Except String Unit :=
  let batch_dims := (List.range args.out_shape.length).filter
    (fun x => ! args.dnums.offset_dims.contains x)
  if batch_dims.length ≠ 1 then
    .error "batch_dims should be 1"
  else if args.dnums.start_index_map ≠
      List.range (args.start_indices_shape.getLastD 0) then
    .error "unsupported start_index_map"
  else if ¬ args.op_shape.headD 0 = args.start_indices_shape.headD 0 then
    .error "Batch dimensions in operand and start_indices do not agree"
  else .ok ()

/-- `_clip` broadcast over an index tensor against a single per-call bound,
as the multidim and batch strategies use it. -/
def tf_clip_tensor (max_index : Int) (start_indices : Tensor Int)
    (slice_size : Int) : Tensor Int :=
  { shape := start_indices.shape
    dtype := .int32
    data := fun idx =>
      clipByValue (tfCastInt32 (start_indices.data idx)) 0
        (tfCastInt32 (max_index - slice_size)) }

/-- `tf.strided_slice(operand, begin, begin + sizes, shrink_axis_mask)`:
the source encodes the shrink axes as a binary mask
(`sum 2^x for x in collapsed_slice_dims`); the axis list itself is used
here. -/
def stridedSliceShrink (t : Tensor α) (begins : List Int) (sizes : List Nat)
    (shrinkAxes : List Nat) : Tensor α :=
  let keep := (List.range sizes.length).filter (fun i => ! shrinkAxes.contains i)
  { shape := keep.map (fun i => sizes.getD i 0)
    dtype := t.dtype
    data := fun idx =>
      t.data ((List.range sizes.length).map (fun a =>
        (begins.getD a 0 +
          (if shrinkAxes.contains a then 0
           else ((idx.getD (keep.indexOf a) 0 : Nat) : Int))).toNat)) }

/-- Source `_gather_for_scalar_indexing`: scatter the per-axis start indices
through `start_index_map` into a full-rank begin vector, clamp, and extract
a strided slice collapsing `collapsed_slice_dims`. -/
def gather_for_scalar_indexing (args : GatherArgs α) : Tensor α :=
  let op_shape := args.op_shape
  let slice_sizes_tf := args.slice_sizes
  -- begin = tf.scatter_nd(expand_dims(start_index_map, 1), start_indices, rank)
  let begin : List Int := (List.range op_shape.length).map (fun d =>
    match args.dnums.start_index_map.indexOf? d with
    | some j => args.start_indices.data [j]
    | none => 0)
  let begin := tf_clip (op_shape.map (Nat.cast : Nat → Int)) begin
    (slice_sizes_tf.map (Nat.cast : Nat → Int))
  stridedSliceShrink args.operand begin slice_sizes_tf
    args.dnums.collapsed_slice_dims

/-- `tf.gather(t, indices, axis, batch_dims=0)`. -/
def tfGather (t : Tensor α) (indices : Tensor Int) (axis : Nat) : Tensor α :=
  { shape := t.shape.take axis ++ indices.shape ++ t.shape.drop (axis + 1)
    dtype := t.dtype
    data := fun idx =>
      let pre := idx.take axis
      let mid := (idx.drop axis).take indices.shape.length
      let post := idx.drop (axis + indices.shape.length)
      t.data (pre ++ (indices.data mid).toNat :: post) }

/-- Source `_gather_for_multidim_indexing`: squeeze the trailing unit index
axis, clamp against the target axis extent with slice size 1, and gather
along that axis. -/
def gather_for_multidim_indexing (args : GatherArgs α) : Tensor α :=
  -- Guess the axis.
  let axis := args.dnums.collapsed_slice_dims.headD 0
  let squeezed_indices := args.start_indices.squeezeLast
  let start_indices :=
    tf_clip_tensor (args.op_shape.getD axis 0 : Int) squeezed_indices 1
  tfGather args.operand start_indices axis

/-- Source `_gather_with_batch_dims`: clamp the per-batch index rows, map a
slice extraction over the batch axis (`tf.map_fn`), and squeeze the
inserted unit axis. -/
def gather_with_batch_dims (args : GatherArgs α) : Tensor α :=
  let depth := args.start_indices.shape.getLastD 0
  -- start_indices = _clip(op_shape, start_indices, slice_sizes), broadcast
  -- over the rows of the rank-2 index tensor
  let clipped : Tensor Int :=
    { shape := args.start_indices.shape
      dtype := .int32
      data := fun idx =>
        clipByValue (tfCastInt32 (args.start_indices.data idx)) 0
          (tfCastInt32 ((args.op_shape.getD (idx.getLastD 0) 0 : Int) -
            (args.slice_sizes.getD (idx.getLastD 0) 0 : Int))) }
  let mapped : Tensor α :=
    { shape := args.start_indices.shape.headD 0 :: args.slice_sizes
      dtype := args.operand.dtype
      data := fun idx =>
        let b := idx.headD 0
        let begins := (List.range depth).map (fun j => clipped.data [b, j])
        (args.operand.slice begins args.slice_sizes).data (idx.drop 1) }
  mapped.squeezeAt 1

/-- The bundle `_gather` builds before running the strategy chain. -/
def mkGatherArgs (operand : Tensor α) (start_indices : Tensor Int)
    (dnums : GatherDimensionNumbers) (slice_sizes : List Nat)
    (op_shape start_indices_shape out_shape : List Nat) : GatherArgs α :=
  ⟨operand, start_indices, dnums, slice_sizes, op_shape, start_indices_shape,
    out_shape⟩

/-- Source `_gather`: fill mode bypasses the chain into the reference
fill-mode evaluator (an external collaborator, passed as a parameter);
otherwise the three strategies run in order, each behind its precondition,
and the rejection reasons are aggregated when all fail. -/
def tf_gather
    (gather_fill_fn :
      Tensor α → Tensor Int → GatherDimensionNumbers → List Nat → Tensor α)
    (operand : Tensor α) (start_indices : Tensor Int)
    (dimension_numbers : GatherDimensionNumbers) (slice_sizes : List Nat)
    (mode : GatherScatterMode)
    (op_shape start_indices_shape out_shape : List Nat) :
    Except (List (String × String)) (Tensor α) :=
  if mode = .FILL_OR_DROP then
    .ok (gather_fill_fn operand start_indices dimension_numbers slice_sizes)
  else
    let args := mkGatherArgs operand start_indices dimension_numbers
      slice_sizes op_shape start_indices_shape out_shape
    match pre_gather_for_scalar_indexing args with
    | .ok _ => .ok (gather_for_scalar_indexing args)
    | .error e1 =>
      match pre_gather_for_multidim_indexing args with
      | .ok _ => .ok (gather_for_multidim_indexing args)
      | .error e2 =>
        match pre_gather_with_batch_dims args with
        | .ok _ => .ok (gather_with_batch_dims args)
        | .error e3 =>
          .error [("_gather_for_scalar_indexing", e1),
                  ("_gather_for_multidim_indexing", e2),
                  ("_gather_with_batch_dims", e3)]

/-- Interleave offset-slice extents and batch extents into the output shape:
output axes listed in `offsetDims` take the next offset extent, the others
the next batch extent. -/
def placeDimsAux (offsetDims : List Nat) :
    Nat → Nat → List Nat → List Nat → List Nat
  | 0, _, _, _ => []
  | n + 1, x, offs, bats =>
    if offsetDims.contains x then
      offs.headD 0 :: placeDimsAux offsetDims n (x + 1) offs.tail bats
    else
      bats.headD 0 :: placeDimsAux offsetDims n (x + 1) offs bats.tail

/-- Modelled from the spec: the output shape a well-formed gather request
must carry (spec section 3, GatherRequest / gather dimension numbers;
the shape rules themselves live in jax library code not under `src/`). -/
def gatherExpectedOutShape (args : GatherArgs α) : List Nat :=
  let offsetSizes := ((List.range args.op_shape.length).filter
      (fun d => ! args.dnums.collapsed_slice_dims.contains d)).map
    (fun d => args.slice_sizes.getD d 0)
  let batchSizes := args.start_indices_shape.dropLast
  placeDimsAux args.dnums.offset_dims (batchSizes.length + offsetSizes.length)
    0 offsetSizes batchSizes

/-- Modelled from the spec: well-formedness of a gather request (spec
section 3): shapes agree with the descriptors, `start_index_map` matches the
index depth and names distinct operand axes, collapsed axes have slice size
1, `offset_dims` names strictly increasing output axes and together with the
batch axes accounts for the whole output, and slice sizes fit the operand. -/
def wellFormedGather (args : GatherArgs α) : Prop :=
  args.op_shape = args.operand.shape ∧
  args.start_indices_shape = args.start_indices.shape ∧
  args.slice_sizes.length = args.op_shape.length ∧
  args.start_indices_shape ≠ [] ∧
  args.dnums.start_index_map.length = args.start_indices_shape.getLastD 0 ∧
  args.dnums.start_index_map.Nodup ∧
  (∀ d ∈ args.dnums.start_index_map, d < args.op_shape.length) ∧
  List.Sorted (· < ·) args.dnums.collapsed_slice_dims ∧
  (∀ d ∈ args.dnums.collapsed_slice_dims,
    d < args.op_shape.length ∧ args.slice_sizes.getD d 0 = 1) ∧
  List.Sorted (· < ·) args.dnums.offset_dims ∧
  (∀ d ∈ args.dnums.offset_dims, d < args.out_shape.length) ∧
  args.dnums.offset_dims.length =
    args.op_shape.length - args.dnums.collapsed_slice_dims.length ∧
  (∀ i, i < args.op_shape.length →
    args.slice_sizes.getD i 0 ≤ args.op_shape.getD i 0) ∧
  args.out_shape = gatherExpectedOutShape args

/-- The well-formed request on which two strategies both accept: a rank-1
operand of extent 3, index array of shape `[1]`, slice size 1, trivial
dimension numbers — plain scalar indexing `op[i]`. -/
def c4args : GatherArgs Int :=
  mkGatherArgs
    { shape := [3], dtype := .float32, data := fun _ => 0 }
    { shape := [1], dtype := .int32, data := fun _ => 1 }
    ⟨[], [0], [0]⟩ [1] [3] [1] []

/-- **C4 counterexample.** A well-formed gather request (not in fill mode)
on which *both* the scalar-indexing and the multi-dimensional-indexing
strategies accept: "at most one of the three strategies accepts" fails. -/
theorem gather_two_strategies_accept :
    wellFormedGather c4args ∧
    exceptIsOk (pre_gather_for_scalar_indexing c4args) = true ∧
    exceptIsOk (pre_gather_for_multidim_indexing c4args) = true := by
  refine ⟨?_, by decide, by decide⟩
  unfold wellFormedGather c4args mkGatherArgs gatherExpectedOutShape
  refine ⟨rfl, rfl, rfl, by decide, rfl, by decide, by decide, by decide,
    by decide, by decide, by decide, rfl, by decide, by decide⟩

/-- **C4 (amended).** The strategies are tried in a fixed order and the
first accepting one produces the result (so several may accept); when all
three preconditions reject, the lowering fails with the aggregated error
listing exactly the three (strategy-name, rejection-reason) pairs, never a
partial result. -/
theorem gather_first_accept_and_aggregated_errors
    (gather_fill_fn :
      Tensor Int → Tensor Int → GatherDimensionNumbers → List Nat → Tensor Int)
    (operand : Tensor Int) (start_indices : Tensor Int)
    (dimension_numbers : GatherDimensionNumbers) (slice_sizes : List Nat)
    (mode : GatherScatterMode)
    (op_shape start_indices_shape out_shape : List Nat)
    (hmode : mode ≠ .FILL_OR_DROP) :
    (pre_gather_for_scalar_indexing (mkGatherArgs operand start_indices
        dimension_numbers slice_sizes op_shape start_indices_shape out_shape) =
        .ok () →
      tf_gather gather_fill_fn operand start_indices dimension_numbers
        slice_sizes mode op_shape start_indices_shape out_shape =
        .ok (gather_for_scalar_indexing (mkGatherArgs operand start_indices
          dimension_numbers slice_sizes op_shape start_indices_shape
          out_shape))) ∧
    (∀ e1 e2 e3 : String,
      pre_gather_for_scalar_indexing (mkGatherArgs operand start_indices
        dimension_numbers slice_sizes op_shape start_indices_shape out_shape) =
        .error e1 →
      pre_gather_for_multidim_indexing (mkGatherArgs operand start_indices
        dimension_numbers slice_sizes op_shape start_indices_shape out_shape) =
        .error e2 →
      pre_gather_with_batch_dims (mkGatherArgs operand start_indices
        dimension_numbers slice_sizes op_shape start_indices_shape out_shape) =
        .error e3 →
      tf_gather gather_fill_fn operand start_indices dimension_numbers
        slice_sizes mode op_shape start_indices_shape out_shape =
        .error [("_gather_for_scalar_indexing", e1),
                ("_gather_for_multidim_indexing", e2),
                ("_gather_with_batch_dims", e3)]) := by
  constructor
  · intro h1
    simp [tf_gather, hmode, h1]
  · intro e1 e2 e3 h1 h2 h3
    simp [tf_gather, hmode, h1, h2, h3]

/-- Witness for the amended C4: a request every strategy rejects (rank-2
index array, non-identity `start_index_map`) produces exactly the three-pair
aggregated error. -/
theorem gather_aggregated_errors_witness :
    tf_gather (fun t _ _ _ => t)
      { shape := [2, 2], dtype := .float32, data := fun _ => (0 : Int) }
      { shape := [2, 2], dtype := .int32, data := fun _ => 0 }
      ⟨[], [0, 1], [1, 0]⟩ [1, 1] .PROMISE_IN_BOUNDS [2, 2] [2, 2] [2] =
      .error [("_gather_for_scalar_indexing", "start_indices shape should be 1"),
              ("_gather_for_multidim_indexing", "unsupported dimension numbers"),
              ("_gather_with_batch_dims", "unsupported start_index_map")] :=
  (gather_first_accept_and_aggregated_errors (fun t _ _ _ => t)
      { shape := [2, 2], dtype := .float32, data := fun _ => (0 : Int) }
      { shape := [2, 2], dtype := .int32, data := fun _ => 0 }
      ⟨[], [0, 1], [1, 0]⟩ [1, 1] .PROMISE_IN_BOUNDS [2, 2] [2, 2] [2]
      (by decide)).2 _ _ _ (by rfl) (by rfl) (by rfl)

/-! ### ContractionLowering (`_dot_general`, source lines 321-406) -/

/-- `tf.linalg.matmul`: batched matrix multiply over the two trailing axes.
Modelled from the TF API contract: both operands must share one dtype and
the call errors otherwise (this external behavior decides claim C7 on the
matmul branch). -/
def tfMatmul (lhs rhs : Tensor ℚ) : Except String (Tensor ℚ) :=
  if lhs.dtype = rhs.dtype then
    .ok { shape := lhs.shape.dropLast ++ [rhs.shape.getLastD 0]
          dtype := lhs.dtype
          data := fun idx =>
            let n := idx.length
            let batch := idx.take (n - 2)
            let i := idx.getD (n - 2) 0
            let j := idx.getD (n - 1) 0
            ((List.range (lhs.shape.getLastD 0)).map (fun k =>
              lhs.data (batch ++ [i, k]) * rhs.data (batch ++ [k, j]))).sum }
  else .error "matmul requires matching dtypes"

/-- Rebuild a full-rank index from a squeezed one by re-inserting zeros at
the squeezed axes. -/
def fillAxesAux (axes : List Nat) : Nat → Nat → List Nat → List Nat
  | 0, _, _ => []
  | n + 1, p, idx =>
    if axes.contains p then 0 :: fillAxesAux axes n (p + 1) idx
    else idx.headD 0 :: fillAxesAux axes n (p + 1) idx.tail

/-- `tf.squeeze(t, axes)` for a list of unit axes. -/
def Tensor.squeezeAxes (t : Tensor α) (axes : List Nat) : Tensor α :=
  { shape := ((List.range t.shape.length).filter
      (fun i => ! axes.contains i)).map (fun i => t.shape.getD i 0)
    dtype := t.dtype
    data := fun idx => t.data (fillAxesAux axes t.shape.length 0 idx) }

/-- Source `_dot_general`: the matmul-compatible pattern goes through
`tf.linalg.matmul` with singleton-axis expansion and squeezing; everything
else builds a label equation and calls the einsum evaluator (an external
collaborator, passed as a parameter; the source's one-letter axis labels
become numeric labels here).  The source's `assert lhs.dtype == rhs.dtype`
before the einsum call becomes an error return. -/
def dot_general
    (einsum_impl :
      List Nat → List Nat → List Nat → Tensor ℚ → Tensor ℚ → Tensor ℚ)
    (lhs rhs : Tensor ℚ)
    (dimension_numbers : (List Nat × List Nat) × (List Nat × List Nat)) :
    Except String (Tensor ℚ) :=
  let lhs_contracting := dimension_numbers.1.1
  let rhs_contracting := dimension_numbers.1.2
  let lhs_batch := dimension_numbers.2.1
  let rhs_batch := dimension_numbers.2.2
  let lhs_ndim := lhs.shape.length
  let rhs_ndim := rhs.shape.length
  if lhs_batch = rhs_batch ∧ rhs_batch = List.range lhs_batch.length ∧
      ((lhs_ndim : Int) - (rhs_ndim : Int)) ∈ ([-1, 0, 1] : List Int) ∧
      1 ≤ lhs_ndim - lhs_batch.length ∧ lhs_ndim - lhs_batch.length ≤ 2 ∧
      1 ≤ rhs_ndim - rhs_batch.length ∧ rhs_ndim - rhs_batch.length ≤ 2 ∧
      lhs_contracting = [lhs_ndim - 1] ∧
      rhs_contracting = [lhs_batch.length] then
    let expandL := lhs_ndim - lhs_batch.length = 1
    let expandR := rhs_ndim - rhs_batch.length = 1
    let lhs' := if expandL then lhs.expandDims (lhs_ndim - 1) else lhs
    let rhs' := if expandR then rhs.expandDims rhs_ndim else rhs
    let squeeze_idxs :=
      (if expandL then [lhs'.shape.length - 2] else []) ++
      (if expandR then [rhs'.shape.length - 1] else [])
    match tfMatmul lhs' rhs' with
    | .error e => .error e
    | .ok result =>
      if squeeze_idxs.length ≠ 0 then
        if ∀ i ∈ squeeze_idxs, result.shape.getD i 0 = 1 then
          .ok (result.squeezeAxes squeeze_idxs)
        else .error "assert failed: squeezed axes must have extent 1"
      else .ok result
  else
    let lhs_axis_ids := List.range lhs_ndim
    let rhs_axis_ids := (List.range rhs_ndim).map (fun i => lhs_ndim + i)
    let init := (lhs_axis_ids, rhs_axis_ids, lhs_axis_ids.map some,
      rhs_axis_ids.map some, lhs_ndim + rhs_ndim, ([] : List Nat))
    let afterContract := (lhs_contracting.zip rhs_contracting).foldl
      (fun st (p : Nat × Nat) =>
        (st.1.set p.1 st.2.2.2.2.1, st.2.1.set p.2 st.2.2.2.2.1,
          st.2.2.1.set p.1 none, st.2.2.2.1.set p.2 none,
          st.2.2.2.2.1 + 1, st.2.2.2.2.2)) init
    let afterBatch := (lhs_batch.zip rhs_batch).foldl
      (fun st (p : Nat × Nat) =>
        (st.1.set p.1 st.2.2.2.2.1, st.2.1.set p.2 st.2.2.2.2.1,
          st.2.2.1.set p.1 none, st.2.2.2.1.set p.2 none,
          st.2.2.2.2.1 + 1, st.2.2.2.2.2 ++ [st.2.2.2.2.1])) afterContract
    let out_axis_ids :=
      (afterBatch.2.2.2.2.2.map some ++ afterBatch.2.2.1 ++
        afterBatch.2.2.2.1).filterMap id
    if lhs.dtype = rhs.dtype then
      .ok (einsum_impl afterBatch.1 afterBatch.2.1 out_axis_ids lhs rhs)
    else .error "assert failed: dot_general operands must share a dtype"

/-- **C7.** A dot-general call whose operand element types differ fails on
both paths: the matmul branch through the matmul primitive's dtype
requirement, the einsum branch through the source's own dtype assertion. -/
theorem dot_general_dtype_mismatch_fails
    (einsum_impl :
      List Nat → List Nat → List Nat → Tensor ℚ → Tensor ℚ → Tensor ℚ)
    (lhs rhs : Tensor ℚ)
    (dimension_numbers : (List Nat × List Nat) × (List Nat × List Nat))
    (h : lhs.dtype ≠ rhs.dtype) :
    exceptIsError (dot_general einsum_impl lhs rhs dimension_numbers) = true := by
  have hdl : ∀ (t : Tensor ℚ) (k : Nat), (t.expandDims k).dtype = t.dtype :=
    fun _ _ => rfl
  unfold dot_general
  split
  · rename_i hdt
    exact absurd hdt h
  · simp [tfMatmul, apply_ite Tensor.dtype, hdl, h, exceptIsError]
    split <;> rename_i heq
    · exact absurd heq (by split <;> simp)
    · rfl

/-- Witness for C7: a float32 × float64 contraction fails. -/
theorem dot_general_dtype_mismatch_fails_witness :
    exceptIsError (dot_general (fun _ _ _ l _ => l)
      { shape := [2, 2], dtype := .float32, data := fun _ => (0 : ℚ) }
      { shape := [2, 2], dtype := .float64, data := fun _ => (0 : ℚ) }
      (([1], [0]), ([], []))) = true :=
  dot_general_dtype_mismatch_fails (fun _ _ _ l _ => l)
    { shape := [2, 2], dtype := .float32, data := fun _ => (0 : ℚ) }
    { shape := [2, 2], dtype := .float64, data := fun _ => (0 : ℚ) }
    (([1], [0]), ([], [])) (by decide)

/-! ### ConvolutionLowering (`_conv_general_dilated` and helpers,
source lines 67-318) -/

/-- Row-major linearization of a multi-index. -/
def flattenIdx (shape idx : List Nat) : Nat :=
  (shape.zip idx).foldl (fun acc p => acc * p.1 + p.2) 0

/-- Inverse of `flattenIdx`. -/
def unflattenIdx : List Nat → Nat → List Nat
  | [], _ => []
  | _ :: ds, n => n / ds.prod :: unflattenIdx ds (n % ds.prod)

/-- `tf.reshape`. -/
def Tensor.reshape (t : Tensor α) (newShape : List Nat) : Tensor α :=
  { shape := newShape
    dtype := t.dtype
    data := fun idx => t.data (unflattenIdx t.shape (flattenIdx newShape idx)) }

/-- `tf.reverse(t, axes)`. -/
def Tensor.reverse (t : Tensor α) (axes : List Nat) : Tensor α :=
  { shape := t.shape
    dtype := t.dtype
    data := fun idx => t.data ((List.range t.shape.length).map (fun a =>
      if axes.contains a then t.shape.getD a 0 - 1 - idx.getD a 0
      else idx.getD a 0)) }

/-- `tf.pad(t, padding, mode="CONSTANT", constant_values=value)` (the
source only materializes non-negative padding through this op). -/
def Tensor.padConst (t : Tensor α) (padding : List (Int × Int)) (value : α) :
    Tensor α :=
  { shape := List.zipWith (fun d (p : Int × Int) => ((d : Int) + p.1 + p.2).toNat)
      t.shape padding
    dtype := t.dtype
    data := fun idx =>
      let src := List.zipWith (fun (i : Nat) (p : Int × Int) => (i : Int) - p.1)
        idx padding
      if (src.zip t.shape).all (fun q => decide (0 ≤ q.1 ∧ q.1 < (q.2 : Int))) then
        t.data (src.map Int.toNat)
      else value }

/-- Source `_transpose_for_tf_conv`: permute `lhs` to NHWC and `rhs` to
HWIO, adding a trailing unit spatial axis in the 1-D case. -/
def transpose_for_tf_conv (lhs rhs : Tensor ℚ)
    (dimension_numbers : List Nat × List Nat × List Nat) :
    Tensor ℚ × Tensor ℚ :=
  let lhs_perm := dimension_numbers.1
  let rhs_perm := dimension_numbers.2.1
  let lhs := lhs.transpose lhs_perm
  let lhs := if lhs_perm.length = 3 then lhs.expandDims 3 else lhs
  let lhs := lhs.transpose [0, 2, 3, 1]
  let rhs := rhs.transpose rhs_perm
  let rhs := if rhs_perm.length = 3 then rhs.expandDims 3 else rhs
  let rhs := rhs.transpose [2, 3, 1, 0]
  (lhs, rhs)

/-- Source `_pad_spatial_dims`.  Bug-faithful: in the conv1d branch the
source builds a padding tensor but never applies `tf.pad`, so the operand
is returned unchanged. -/
def pad_spatial_dims (lhs : Tensor ℚ) (padding : List (Int × Int))
    (is_conv1d : Bool) : Tensor ℚ :=
  if is_conv1d then lhs
  else lhs.padConst ([((0 : Int), (0 : Int))] ++ padding ++
    [((0 : Int), (0 : Int))]) 0

/-- Source `_conv_transpose_pads_to_padtype`: check agreement with
`lax._conv_transpose_padding`'s VALID and SAME formulas, keyed on kernel
size and stride (`int(np.ceil(p / 2))` is the exact ceiling `(p + 1) / 2`). -/
def conv_transpose_pads_to_padtype (kernel_sdims lhs_dilation : List Nat)
    (padding : List (Int × Int)) : Except String PadType :=
  if ¬ (kernel_sdims.length = lhs_dilation.length ∧
      lhs_dilation.length = padding.length) then
    .error "Found different lengths for kernel_sdims, lhs_dilation, and padding"
  else
    let checks := zipWith3 (fun k s (p : Int × Int) =>
      let pad_len_valid : Int := (k : Int) + (s : Int) - 2 +
        max ((k : Int) - (s : Int)) 0
      let pad_a_v : Int := (k : Int) - 1
      let pad_b_v : Int := pad_len_valid - pad_a_v
      let pad_len_same : Int := (k : Int) + (s : Int) - 2
      let pad_a_s : Int :=
        if (k : Int) - 1 < (s : Int) then (k : Int) - 1
        else (pad_len_same + 1) / 2
      let pad_b_s : Int := pad_len_same - pad_a_s
      (decide (p.1 = pad_a_v ∧ p.2 = pad_b_v),
        decide (p.1 = pad_a_s ∧ p.2 = pad_b_s)))
      kernel_sdims lhs_dilation padding
    if checks.all (fun c => c.1) then .ok .VALID
    else if checks.all (fun c => c.2) then .ok .SAME
    else .error "Transpose convolution padding mode must be SAME or VALID"

/-- Source `_validate_spatial_dimensions`: only 1-D and 2-D convolutions. -/
def validate_spatial_dimensions (nr_spatial_dimensions : Nat) :
    Except String Unit :=
  if nr_spatial_dimensions > 2 then
    .error "We only support 1D or 2D convolutions"
  else .ok ()

/-- Source `_normalize_padding_and_dilations`: 1-D convolutions get an
extra unit spatial axis in padding and the dilations. -/
def normalize_padding_and_dilations (padding : List (Int × Int))
    (lhs_dilation rhs_dilation : List Nat) (is_conv1d : Bool) :
    List (Int × Int) × List Nat × List Nat :=
  if is_conv1d then
    (padding ++ [((0 : Int), (0 : Int))], lhs_dilation ++ [1],
      rhs_dilation ++ [1])
  else (padding, lhs_dilation, rhs_dilation)

/-- Source `_normalize_window_strides`: pad the stride list to length 4. -/
def normalize_window_strides (window_strides : List Nat) : List Nat :=
  let ws := if window_strides.length = 1 then window_strides ++ [1]
    else window_strides
  if ws.length = 2 then 1 :: ws ++ [1] else ws

/-- The downstream convolution primitives (`tf.nn.depthwise_conv2d`,
`tf.nn.conv2d_transpose`, `tf.nn.conv2d`) the dispatch drives; external
collaborators, so the lowering is parameterized over them. -/
structure ConvPrims where
  depthwise_conv2d :
    Tensor ℚ → Tensor ℚ → List Nat → PadType → List Nat → Tensor ℚ
  conv2d_transpose :
    Tensor ℚ → Tensor ℚ → List Nat → List Nat → PadType → Tensor ℚ
  conv2d : Tensor ℚ → Tensor ℚ → List Nat → PadType → List Nat → Tensor ℚ

/-- Everything `_conv_general_dilated` computes before the degenerate-window
check (source lines 212-255). -/
structure ConvSt where
  lhs : Tensor ℚ
  rhs : Tensor ℚ
  tf_window_strides : List Nat
  padding : List (Int × Int)
  lhs_dilation : List Nat
  rhs_dilation : List Nat
  is_conv1d : Bool
  is_transpose : Bool
  is_atrous : Bool
  is_depthwise : Bool
  in_channels : Nat
  rhs_spatial_shapes : List Nat
  rhs_out_channel : Nat
  rhs_dilated_shape : List Nat
  output_perm : List Nat
  padding_type : PadType

/-- Source `_conv_general_dilated`, lines 212-255: validation, layout
conversion, flag derivation, padding classification and explicit-padding
materialization (downgrading the scheme to VALID). -/
def conv_prelude (lhs rhs : Tensor ℚ) (window_strides : List Nat)
    (padding : List (Int × Int)) (lhs_dilation rhs_dilation : List Nat)
    (dimension_numbers : List Nat × List Nat × List Nat)
    (feature_group_count batch_group_count : Nat)
    (preferred_element_type : Option TfType) : Except String ConvSt := do
  validate_spatial_dimensions (lhs.shape.length - 2)
  let is_conv1d := lhs.shape.length - 2 = 1
  let tf_window_strides := normalize_window_strides window_strides
  let (padding, lhs_dilation, rhs_dilation) :=
    normalize_padding_and_dilations padding lhs_dilation rhs_dilation is_conv1d
  let (lhs, rhs) := transpose_for_tf_conv lhs rhs dimension_numbers
  let in_channels := lhs.shape.getLastD 0
  let rhs_spatial_shapes := rhs.shape.take (rhs.shape.length - 2)
  let rhs_out_channel := rhs.shape.getLastD 0
  let is_transpose := lhs_dilation.any (fun d => decide (d ≠ 1))
  let is_atrous := rhs_dilation.any (fun d => decide (d ≠ 1))
  let is_depthwise := decide (in_channels = feature_group_count) &&
    decide (feature_group_count > 1)
  validate_conv_features is_transpose is_atrous is_depthwise
    feature_group_count batch_group_count preferred_element_type lhs.dtype
  let rhs_dilated_shape := List.zipWith (fun k r => (k - 1) * r + 1)
    rhs_spatial_shapes rhs_dilation
  let output_perm := dimension_numbers.2.2
  if is_transpose then
    let pt ← conv_transpose_pads_to_padtype rhs_spatial_shapes lhs_dilation
      padding
    return ⟨lhs, rhs, tf_window_strides, padding, lhs_dilation, rhs_dilation,
      is_conv1d, is_transpose, is_atrous, is_depthwise, in_channels,
      rhs_spatial_shapes, rhs_out_channel, rhs_dilated_shape, output_perm, pt⟩
  else
    let pt := pads_to_padtype ((lhs.shape.drop 1).take 2) rhs_dilated_shape
      window_strides padding
    -- We only manually pad if we are not using a transposed convolution.
    if pt = .EXPLICIT then
      let lhs := pad_spatial_dims lhs padding is_conv1d
      return ⟨lhs, rhs, tf_window_strides, padding, lhs_dilation, rhs_dilation,
        is_conv1d, is_transpose, is_atrous, is_depthwise, in_channels,
        rhs_spatial_shapes, rhs_out_channel, rhs_dilated_shape, output_perm,
        .VALID⟩
    else
      return ⟨lhs, rhs, tf_window_strides, padding, lhs_dilation, rhs_dilation,
        is_conv1d, is_transpose, is_atrous, is_depthwise, in_channels,
        rhs_spatial_shapes, rhs_out_channel, rhs_dilated_shape, output_perm, pt⟩

/-- The degenerate-window test of source lines 257-258: some dilated kernel
spatial extent exceeds the (possibly explicitly padded) input extent and the
scheme is not SAME. -/
def convIsDegenerate (st : ConvSt) : Bool :=
  (((st.lhs.shape.drop 1).take 2).zip st.rhs_dilated_shape).any
    (fun p => decide (p.1 < p.2)) &&
  decide (st.padding_type ≠ PadType.SAME)

/-- Source `_conv_general_dilated`: prelude, degenerate-window zero result,
dispatch to exactly one of the depthwise / transpose / plain primitives, and
conversion back to the caller's output layout. -/
def conv_general_dilated (prims : ConvPrims) (lhs rhs : Tensor ℚ)
    (window_strides : List Nat) (padding : List (Int × Int))
    (lhs_dilation rhs_dilation : List Nat)
    (dimension_numbers : List Nat × List Nat × List Nat)
    (feature_group_count batch_group_count : Nat)
    (preferred_element_type : Option TfType) (out_shape : List Nat) :
    Except String (Tensor ℚ) := do
  let st ← conv_prelude lhs rhs window_strides padding lhs_dilation
    rhs_dilation dimension_numbers feature_group_count batch_group_count
    preferred_element_type
  if convIsDegenerate st then
    -- lax returns only zeros while tf.conv2d returns an error, so return
    -- zeros to keep the behavior consistent
    return broadcastConst (0 : ℚ) .float32 out_shape
  else
    let output :=
      if st.is_depthwise then
        let new_rhs_shape := st.rhs_spatial_shapes ++
          [st.in_channels, st.rhs_out_channel / st.in_channels]
        prims.depthwise_conv2d st.lhs (st.rhs.reshape new_rhs_shape)
          st.tf_window_strides st.padding_type st.rhs_dilation
      else if st.is_transpose then
        let rhs_t := (st.rhs.reverse [0, 1]).transpose [0, 1, 3, 2]
        let tf_out_shape_nchw :=
          (st.output_perm.map (fun i => out_shape.getD i 0)) ++
            (if st.is_conv1d then [1] else [])
        let tf_out_shape := [0, 2, 3, 1].map (fun i => tf_out_shape_nchw.getD i 0)
        prims.conv2d_transpose st.lhs rhs_t tf_out_shape st.lhs_dilation
          st.padding_type
      else
        prims.conv2d st.lhs st.rhs st.tf_window_strides st.padding_type
          st.rhs_dilation
    let output := output.transpose [0, 3, 1, 2]
    let output := if st.is_conv1d then output.squeezeLast else output
    let inverse_perm := invertPermutation st.output_perm
    return output.transpose inverse_perm

/-- The C1/C10 hypothesis: the prelude succeeds and reaches the
degenerate-window branch with a non-SAME scheme. -/
def convDegenerateNonSame (lhs rhs : Tensor ℚ) (window_strides : List Nat)
    (padding : List (Int × Int)) (lhs_dilation rhs_dilation : List Nat)
    (dimension_numbers : List Nat × List Nat × List Nat)
    (feature_group_count batch_group_count : Nat)
    (preferred_element_type : Option TfType) : Bool :=
  match conv_prelude lhs rhs window_strides padding lhs_dilation rhs_dilation
    dimension_numbers feature_group_count batch_group_count
    preferred_element_type with
  | .ok st => convIsDegenerate st
  | .error _ => false

/-- **C1.** Whenever a convolution instance reaches the degenerate-window
branch — the dilated kernel's spatial extent exceeds the (possibly
explicitly padded) input extent on some spatial axis and the inferred
scheme is not SAME — the lowering succeeds with an all-zero tensor of the
expected output shape, for any behavior of the downstream convolution
primitives. -/
theorem conv_degenerate_returns_zeros (prims : ConvPrims)
    (lhs rhs : Tensor ℚ) (window_strides : List Nat)
    (padding : List (Int × Int)) (lhs_dilation rhs_dilation : List Nat)
    (dimension_numbers : List Nat × List Nat × List Nat)
    (feature_group_count batch_group_count : Nat)
    (preferred_element_type : Option TfType) (out_shape : List Nat)
    (h : convDegenerateNonSame lhs rhs window_strides padding lhs_dilation
      rhs_dilation dimension_numbers feature_group_count batch_group_count
      preferred_element_type = true) :
    ExceptOkP (fun t => t.shape = out_shape ∧ ∀ idx, t.data idx = 0)
      (conv_general_dilated prims lhs rhs window_strides padding lhs_dilation
        rhs_dilation dimension_numbers feature_group_count batch_group_count
        preferred_element_type out_shape) := by
  unfold convDegenerateNonSame at h
  unfold conv_general_dilated
  cases heq : conv_prelude lhs rhs window_strides padding lhs_dilation
      rhs_dilation dimension_numbers feature_group_count batch_group_count
      preferred_element_type with
  | error e => rw [heq] at h; exact absurd h (by simp)
  | ok st =>
    rw [heq] at h
    simp only [heq, bind, Except.bind]
    rw [if_pos h]
    exact ⟨rfl, fun _ => rfl⟩

/-- **C10.** The degenerate-window zero tensor is constructed with a fixed
float32 dtype, whatever the operand's element type is. -/
theorem conv_degenerate_zero_is_float32 (prims : ConvPrims)
    (lhs rhs : Tensor ℚ) (window_strides : List Nat)
    (padding : List (Int × Int)) (lhs_dilation rhs_dilation : List Nat)
    (dimension_numbers : List Nat × List Nat × List Nat)
    (feature_group_count batch_group_count : Nat)
    (preferred_element_type : Option TfType) (out_shape : List Nat)
    (h : convDegenerateNonSame lhs rhs window_strides padding lhs_dilation
      rhs_dilation dimension_numbers feature_group_count batch_group_count
      preferred_element_type = true) :
    ExceptOkP (fun t => t.dtype = TfType.float32)
      (conv_general_dilated prims lhs rhs window_strides padding lhs_dilation
        rhs_dilation dimension_numbers feature_group_count batch_group_count
        preferred_element_type out_shape) := by
  unfold convDegenerateNonSame at h
  unfold conv_general_dilated
  cases heq : conv_prelude lhs rhs window_strides padding lhs_dilation
      rhs_dilation dimension_numbers feature_group_count batch_group_count
      preferred_element_type with
  | error e => rw [heq] at h; exact absurd h (by simp)
  | ok st =>
    rw [heq] at h
    simp only [heq, bind, Except.bind]
    rw [if_pos h]
    exact rfl

/-- Downstream primitives that ignore their inputs; the degenerate branch
never calls them. -/
def trivialConvPrims : ConvPrims :=
  ⟨fun l _ _ _ _ => l, fun l _ _ _ _ => l, fun l _ _ _ _ => l⟩

/-- 2-D degenerate-window operand: NCHW `[1, 1, 2, 2]`, float64 elements. -/
def convW_lhs : Tensor ℚ :=
  { shape := [1, 1, 2, 2], dtype := .float64, data := fun _ => 1 }

/-- 3×3 kernel, larger than the 2×2 input. -/
def convW_rhs : Tensor ℚ :=
  { shape := [1, 1, 3, 3], dtype := .float64, data := fun _ => 1 }

/-- Witness for C1: a 3×3 kernel over a 2×2 input with VALID padding hits
the degenerate branch and yields the all-zero `[1, 1, 0, 0]` result. -/
theorem conv_degenerate_returns_zeros_witness :
    ExceptOkP (fun t => t.shape = [1, 1, 0, 0] ∧ ∀ idx, t.data idx = 0)
      (conv_general_dilated trivialConvPrims convW_lhs convW_rhs [1, 1]
        [(0, 0), (0, 0)] [1, 1] [1, 1] ([0, 1, 2, 3], [0, 1, 2, 3], [0, 1, 2, 3])
        1 1 none [1, 1, 0, 0]) :=
  conv_degenerate_returns_zeros trivialConvPrims convW_lhs convW_rhs [1, 1]
    [(0, 0), (0, 0)] [1, 1] [1, 1] ([0, 1, 2, 3], [0, 1, 2, 3], [0, 1, 2, 3])
    1 1 none [1, 1, 0, 0] (by decide)

/-- Witness for C10: the same degenerate instance has a float64 operand but
produces a float32 zero tensor. -/
theorem conv_degenerate_zero_is_float32_witness :
    convW_lhs.dtype = TfType.float64 ∧
    ExceptOkP (fun t => t.dtype = TfType.float32)
      (conv_general_dilated trivialConvPrims convW_lhs convW_rhs [1, 1]
        [(0, 0), (0, 0)] [1, 1] [1, 1] ([0, 1, 2, 3], [0, 1, 2, 3], [0, 1, 2, 3])
        1 1 none [1, 1, 0, 0]) :=
  ⟨rfl, conv_degenerate_zero_is_float32 trivialConvPrims convW_lhs convW_rhs
    [1, 1] [(0, 0), (0, 0)] [1, 1] [1, 1]
    ([0, 1, 2, 3], [0, 1, 2, 3], [0, 1, 2, 3]) 1 1 none [1, 1, 0, 0]
    (by decide)⟩

/-! ### WindowReductionLowering (`_reduce_window`, source lines 491-569) -/

/-- Low-side SAME padding for pooling: half (rounded down) of
`max 0 ((out - 1) * stride + window - input)`, as TF computes it. -/
def samePadLow (d w s : Nat) : Int :=
  let out : Int := ceilDiv d s
  let total : Int := max 0 ((out - 1) * (s : Int) + (w : Int) - (d : Int))
  total / 2

/-- Pooling output extents: `⌈d / s⌉` under SAME, `(d - w) / s + 1` (zero
when the window exceeds the axis) under VALID. -/
def poolOutShape (pt : PadType) (shape window strides : List Nat) : List Nat :=
  match pt with
  | .SAME => List.zipWith ceilDiv shape strides
  | _ => zipWith3 (fun d w s => if d < w then 0 else (d - w) / s + 1)
      shape window strides

/-- Source coordinates read by a pooling window: output index times stride
plus window offset, shifted left by the SAME padding. -/
def poolSrcIdx (pt : PadType) :
    List Nat → List Nat → List Nat → List Nat → List Nat → List Int
  | d :: ds, w :: ws, s :: ss, i :: is_, o :: os =>
    (((i * s + o : Nat) : Int) - (if pt = .SAME then samePadLow d w s else 0)) ::
      poolSrcIdx pt ds ws ss is_ os
  | _, _, _, _, _ => []

/-- Elementwise bounds check of a source coordinate vector. -/
def inBoundsI : List Nat → List Int → Bool
  | d :: ds, p :: ps => (decide (0 ≤ p ∧ p < (d : Int))) && inBoundsI ds ps
  | [], [] => true
  | _, _ => false

/-- The in-bounds elements a pooling window sees at one output index
(SAME padding contributes nothing, exactly as TF pooling ignores padded
positions). -/
def poolContrib (t : Tensor ℚ) (window strides : List Nat) (pt : PadType)
    (idx : List Nat) : List ℚ :=
  (enumIdx window).filterMap (fun off =>
    let pos := poolSrcIdx pt t.shape window strides idx off
    if inBoundsI t.shape pos then some (t.data (pos.map Int.toNat)) else none)

/-- `tf.nn.avg_pool`: mean of the in-bounds window elements (TF divides by
the count of elements inside the input, excluding SAME padding). -/
def avg_pool (t : Tensor ℚ) (window strides : List Nat) (pt : PadType) :
    Tensor ℚ :=
  { shape := poolOutShape pt t.shape window strides
    dtype := t.dtype
    data := fun idx =>
      let c := poolContrib t window strides pt idx
      c.sum / (c.length : ℚ) }

/-- `tf.nn.max_pool`: maximum of the in-bounds window elements. -/
def max_pool (t : Tensor ℚ) (window strides : List Nat) (pt : PadType) :
    Tensor ℚ :=
  { shape := poolOutShape pt t.shape window strides
    dtype := t.dtype
    data := fun idx =>
      let c := poolContrib t window strides pt idx
      c.foldr max (c.headD 0) }

/-- Source `_reduce_window`: dtype checks, batch/channel-axis inference,
dilation and padding restrictions, axis synthesis, pooling, and the
sum-as-average-times-count trick (the TF data-format string is layout
bookkeeping with no computational content here). -/
def reduce_window (name : String) (operand : Tensor ℚ)
    (window_dimensions window_strides : List Nat) (padding : List (Int × Int))
    (base_dilation window_dilation : List Nat) : Except String (Tensor ℚ) :=
  let dtype := operand.dtype
  if name = "reduce_window_max" ∧ dtype ∈ [TfType.bool', .uint32, .uint64,
      .complex64, .complex128] then
    .error "tf.nn.max_pool does not support operands of this type"
  else if name = "reduce_window_sum" ∧ ¬ dtype ∈ [TfType.float16, .float32,
      .float64] then
    .error "tf.nn.avg_pool does not support operands of this type"
  else
    let has_batch_dim := window_dimensions.headD 0 = 1
    let has_channel_dim := window_dimensions.getLastD 0 = 1
    let nb_spatial_dimensions : Int := (operand.shape.length : Int) -
      (if has_batch_dim then 1 else 0) - (if has_channel_dim then 1 else 0)
    if nb_spatial_dimensions < 1 ∨ nb_spatial_dimensions > 3 then
      .error "TensorFlow can only handle pooling for arrays with 1, 2, or 3 spatial dimensions"
    else if ¬ base_dilation = List.replicate operand.shape.length 1 then
      .error "Unimplemented support for base dilation"
    else if ¬ window_dilation = List.replicate operand.shape.length 1 then
      .error "Unimplemented support for window dilation"
    else
      let tf_padding := pads_to_padtype operand.shape window_dimensions
        window_strides padding
      if tf_padding = .EXPLICIT then
        .error "Padding should either be VALID or SAME"
      else
        let tf_operand := if ¬ has_batch_dim then operand.expandDims 0
          else operand
        let tf_window_dimensions := if ¬ has_batch_dim then
          1 :: window_dimensions else window_dimensions
        let tf_window_strides := if ¬ has_batch_dim then 1 :: window_strides
          else window_strides
        let tf_operand := if ¬ has_channel_dim then tf_operand.expandLast
          else tf_operand
        let tf_window_dimensions := if ¬ has_channel_dim then
          tf_window_dimensions ++ [1] else tf_window_dimensions
        let tf_window_strides := if ¬ has_channel_dim then
          tf_window_strides ++ [1] else tf_window_strides
        let result? : Option (Tensor ℚ) :=
          if name = "reduce_window_max" then
            some (max_pool tf_operand tf_window_dimensions tf_window_strides
              tf_padding)
          else if name = "reduce_window_sum" then
            some (scalarMul ((tf_window_dimensions.prod : Nat) : ℚ)
              (avg_pool tf_operand tf_window_dimensions tf_window_strides
                tf_padding))
          else none
        match result? with
        | none => .error "Only reduce_window_max and reduce_window_sum are supported."
        | some result =>
          let result := if ¬ has_batch_dim then result.squeezeAt 0 else result
          let result := if ¬ has_channel_dim then result.squeezeLast
            else result
          .ok result

theorem removeAt_zero (l : List α) : removeAt 0 l = l.drop 1 := rfl

theorem dropLast_drop_one_comm (l : List α) :
    l.dropLast.drop 1 = (l.drop 1).dropLast := by
  cases l with
  | nil => rfl
  | cons a l =>
    cases l with
    | nil => rfl
    | cons b r => rfl

theorem expand_comm (t : Tensor α) :
    (t.expandDims 0).expandLast = t.expandLast.expandDims 0 := by
  obtain ⟨sh, dt, f⟩ := t
  have hdata : ∀ idx : List Nat,
      f (removeAt 0 idx.dropLast) = f ((removeAt 0 idx).dropLast) := by
    intro idx
    rw [removeAt_zero, removeAt_zero, dropLast_drop_one_comm]
  unfold Tensor.expandDims Tensor.expandLast
  simp only [Tensor.mk.injEq]
  refine ⟨by trivial, by trivial, funext hdata⟩

theorem zipWith3_length (f : α → β → γ → δ) (as_ : List α) (bs : List β)
    (cs : List γ) :
    (zipWith3 f as_ bs cs).length = min as_.length (min bs.length cs.length) := by
  induction as_ generalizing bs cs with
  | nil => simp [zipWith3]
  | cons a as_ ih =>
    cases bs with
    | nil => simp [zipWith3]
    | cons b bs =>
      cases cs with
      | nil => simp [zipWith3]
      | cons c cs => simp [zipWith3, ih]; omega

theorem zipWith3_append_one (f : α → β → γ → δ) (as_ : List α) (bs : List β)
    (cs : List γ) (a : α) (b : β) (c : γ)
    (h1 : as_.length = bs.length) (h2 : bs.length = cs.length) :
    zipWith3 f (as_ ++ [a]) (bs ++ [b]) (cs ++ [c]) =
      zipWith3 f as_ bs cs ++ [f a b c] := by
  induction as_ generalizing bs cs with
  | nil =>
    cases bs with
    | nil => cases cs with
      | nil => rfl
      | cons c cs => simp at h2
    | cons b bs => simp at h1
  | cons x as_ ih =>
    cases bs with
    | nil => simp at h1
    | cons y bs =>
      cases cs with
      | nil => simp at h2
      | cons z cs =>
        simp only [List.cons_append, zipWith3, List.cons.injEq, true_and]
        exact ih bs cs (by simpa using h1) (by simpa using h2)

theorem poolOutShape_length (pt : PadType) (sh w s : List Nat)
    (hw : w.length = sh.length) (hs : s.length = sh.length) :
    (poolOutShape pt sh w s).length = sh.length := by
  cases pt <;> simp [poolOutShape, zipWith3_length, hw, hs]

theorem poolOutShape_cons_one (pt : PadType) (ds ws ss : List Nat) :
    poolOutShape pt (1 :: ds) (1 :: ws) (1 :: ss) =
      1 :: poolOutShape pt ds ws ss := by
  cases pt <;> simp [poolOutShape, zipWith3, ceilDiv]

theorem poolOutShape_append_one (pt : PadType) (ds ws ss : List Nat)
    (hw : ws.length = ds.length) (hs : ss.length = ds.length) :
    poolOutShape pt (ds ++ [1]) (ws ++ [1]) (ss ++ [1]) =
      poolOutShape pt ds ws ss ++ [1] := by
  cases pt with
  | SAME =>
    simp only [poolOutShape]
    rw [List.zipWith_append _ _ _ _ _ (by omega)]
    simp [ceilDiv]
  | VALID =>
    simp only [poolOutShape]
    rw [zipWith3_append_one _ _ _ _ _ _ _ (by omega) (by omega)]
    simp
  | EXPLICIT =>
    simp only [poolOutShape]
    rw [zipWith3_append_one _ _ _ _ _ _ _ (by omega) (by omega)]
    simp

theorem enumIdx_cons_one (ds : List Nat) :
    enumIdx (1 :: ds) = (enumIdx ds).map (0 :: ·) := by
  simp [enumIdx, List.range_succ]

theorem enumIdx_append_one (ds : List Nat) :
    enumIdx (ds ++ [1]) = (enumIdx ds).map (· ++ [0]) := by
  induction ds with
  | nil => simp [enumIdx, List.range_succ]
  | cons d ds ih =>
    show (List.range d).flatMap (fun i => (enumIdx (ds ++ [1])).map (i :: ·)) =
      ((List.range d).flatMap (fun i => (enumIdx ds).map (i :: ·))).map (· ++ [0])
    rw [ih, List.map_flatMap]
    refine congrArg _ (funext fun i => ?_)
    rw [List.map_map, List.map_map]
    rfl

theorem filterMapCongr {f g : α → Option β} (l : List α)
    (h : ∀ x ∈ l, f x = g x) : l.filterMap f = l.filterMap g := by
  induction l with
  | nil => rfl
  | cons a l ih =>
    simp only [List.filterMap_cons, h a (by simp)]
    rw [ih (fun x hx => h x (by simp [hx]))]

theorem samePadLow_one : samePadLow 1 1 1 = 0 := by decide

theorem poolSrcIdx_cons_one (pt : PadType) (ds ws ss is_ os : List Nat) :
    poolSrcIdx pt (1 :: ds) (1 :: ws) (1 :: ss) (0 :: is_) (0 :: os) =
      0 :: poolSrcIdx pt ds ws ss is_ os := by
  simp [poolSrcIdx, samePadLow_one]

theorem inBoundsI_cons_one (ds : List Nat) (ps : List Int) :
    inBoundsI (1 :: ds) (0 :: ps) = inBoundsI ds ps := by
  simp [inBoundsI]

theorem poolSrcIdx_length (pt : PadType) (ds ws ss is_ os : List Nat)
    (h1 : ws.length = ds.length) (h2 : ss.length = ds.length)
    (h3 : is_.length = ds.length) (h4 : os.length = ds.length) :
    (poolSrcIdx pt ds ws ss is_ os).length = ds.length := by
  induction ds generalizing ws ss is_ os with
  | nil =>
    rw [List.length_eq_zero.mp h1, List.length_eq_zero.mp h2,
      List.length_eq_zero.mp h3, List.length_eq_zero.mp h4]
    rfl
  | cons d ds ih =>
    cases ws with
    | nil => simp at h1
    | cons w ws =>
      cases ss with
      | nil => simp at h2
      | cons s ss =>
        cases is_ with
        | nil => simp at h3
        | cons i is_ =>
          cases os with
          | nil => simp at h4
          | cons o os =>
            simp only [poolSrcIdx, List.length_cons, Nat.succ.injEq]
            exact ih ws ss is_ os (by simpa using h1) (by simpa using h2)
              (by simpa using h3) (by simpa using h4)

theorem poolSrcIdx_append_one (pt : PadType) (ds ws ss is_ os : List Nat)
    (h1 : ws.length = ds.length) (h2 : ss.length = ds.length)
    (h3 : is_.length = ds.length) (h4 : os.length = ds.length) :
    poolSrcIdx pt (ds ++ [1]) (ws ++ [1]) (ss ++ [1]) (is_ ++ [0]) (os ++ [0]) =
      poolSrcIdx pt ds ws ss is_ os ++ [0] := by
  induction ds generalizing ws ss is_ os with
  | nil =>
    rw [List.length_eq_zero.mp h1, List.length_eq_zero.mp h2,
      List.length_eq_zero.mp h3, List.length_eq_zero.mp h4]
    simp [poolSrcIdx, samePadLow_one]
  | cons d ds ih =>
    cases ws with
    | nil => simp at h1
    | cons w ws =>
      cases ss with
      | nil => simp at h2
      | cons s ss =>
        cases is_ with
        | nil => simp at h3
        | cons i is_ =>
          cases os with
          | nil => simp at h4
          | cons o os =>
            simp only [List.cons_append, poolSrcIdx, List.cons.injEq, true_and]
            exact ih ws ss is_ os (by simpa using h1) (by simpa using h2)
              (by simpa using h3) (by simpa using h4)

theorem inBoundsI_append_one (ds : List Nat) (ps : List Int)
    (h : ps.length = ds.length) :
    inBoundsI (ds ++ [1]) (ps ++ [0]) = inBoundsI ds ps := by
  induction ds generalizing ps with
  | nil =>
    rw [List.length_eq_zero.mp h]
    rfl
  | cons d ds ih =>
    cases ps with
    | nil => simp at h
    | cons p ps =>
      simp only [List.cons_append, inBoundsI]
      exact congrArg (fun b => (decide (0 ≤ p ∧ p < (d : Int))) && b)
        (ih ps (by simpa using h))

theorem poolContrib_cons_one (t : Tensor ℚ) (w s : List Nat) (pt : PadType)
    (idx : List Nat) :
    poolContrib (t.expandDims 0) (1 :: w) (1 :: s) pt (0 :: idx) =
      poolContrib t w s pt idx := by
  unfold poolContrib
  rw [show (Tensor.expandDims t 0).shape = 1 :: t.shape from rfl]
  rw [enumIdx_cons_one, List.filterMap_map]
  refine filterMapCongr _ (fun off _ => ?_)
  simp only [Function.comp]
  rw [poolSrcIdx_cons_one, inBoundsI_cons_one]
  rfl

theorem avg_pool_data_cons_one (t : Tensor ℚ) (w s : List Nat) (pt : PadType)
    (idx : List Nat) :
    (avg_pool (t.expandDims 0) (1 :: w) (1 :: s) pt).data (0 :: idx) =
      (avg_pool t w s pt).data idx := by
  show (let c := poolContrib (t.expandDims 0) (1 :: w) (1 :: s) pt (0 :: idx)
    c.sum / (c.length : ℚ)) = _
  rw [poolContrib_cons_one]
  rfl

theorem poolContrib_append_one (t : Tensor ℚ) (w s : List Nat) (pt : PadType)
    (idx : List Nat) (hw : w.length = t.shape.length)
    (hs : s.length = t.shape.length) (hi : idx.length = t.shape.length) :
    poolContrib t.expandLast (w ++ [1]) (s ++ [1]) pt (idx ++ [0]) =
      poolContrib t w s pt idx := by
  unfold poolContrib
  rw [show (Tensor.expandLast t).shape = t.shape ++ [1] from rfl]
  rw [enumIdx_append_one, List.filterMap_map]
  refine filterMapCongr _ (fun off hoff => ?_)
  have hol : off.length = t.shape.length :=
    (length_of_mem_enumIdx hoff).trans hw
  simp only [Function.comp]
  rw [poolSrcIdx_append_one pt t.shape w s idx off hw hs hi hol]
  rw [inBoundsI_append_one _ _ (poolSrcIdx_length pt t.shape w s idx off hw hs hi hol)]
  have hlist : ((poolSrcIdx pt t.shape w s idx off ++ [0]).map Int.toNat).dropLast =
      (poolSrcIdx pt t.shape w s idx off).map Int.toNat := by
    simp
  have hdata : (Tensor.expandLast t).data
      ((poolSrcIdx pt t.shape w s idx off ++ [0]).map Int.toNat) =
      t.data ((poolSrcIdx pt t.shape w s idx off).map Int.toNat) :=
    congrArg t.data hlist
  rw [hdata]

theorem avg_pool_data_append_one (t : Tensor ℚ) (w s : List Nat)
    (pt : PadType) (idx : List Nat) (hw : w.length = t.shape.length)
    (hs : s.length = t.shape.length) (hi : idx.length = t.shape.length) :
    (avg_pool t.expandLast (w ++ [1]) (s ++ [1]) pt).data (idx ++ [0]) =
      (avg_pool t w s pt).data idx := by
  show (let c := poolContrib t.expandLast (w ++ [1]) (s ++ [1]) pt (idx ++ [0])
    c.sum / (c.length : ℚ)) = _
  rw [poolContrib_append_one t w s pt idx hw hs hi]
  rfl

theorem teq_pool_batch_only (t : Tensor ℚ) (w s : List Nat) (pt : PadType)
    (c : ℚ) (hw : w.length = t.shape.length) (hs : s.length = t.shape.length) :
    Teq ((scalarMul c (avg_pool t.expandLast (w ++ [1]) (s ++ [1]) pt)).squeezeLast)
      (scalarMul c (avg_pool t w s pt)) := by
  have hsh : ((scalarMul c (avg_pool t.expandLast (w ++ [1]) (s ++ [1])
      pt)).squeezeLast).shape = poolOutShape pt t.shape w s := by
    show (poolOutShape pt (t.shape ++ [1]) (w ++ [1]) (s ++ [1])).dropLast = _
    rw [poolOutShape_append_one pt t.shape w s hw hs]
    simp
  refine teq_of_pointwise hsh (fun idx hidx => ?_)
  have hi : idx.length = t.shape.length := by
    have h1 := length_of_mem_enumIdx hidx
    rw [hsh, poolOutShape_length pt t.shape w s hw hs] at h1
    exact h1
  show (avg_pool t.expandLast (w ++ [1]) (s ++ [1]) pt).data (idx ++ [0]) * c =
    (avg_pool t w s pt).data idx * c
  rw [avg_pool_data_append_one t w s pt idx hw hs hi]

theorem teq_pool_channel_only (t : Tensor ℚ) (w s : List Nat) (pt : PadType)
    (c : ℚ) :
    Teq ((scalarMul c (avg_pool (t.expandDims 0) (1 :: w) (1 :: s) pt)).squeezeAt 0)
      (scalarMul c (avg_pool t w s pt)) := by
  have hsh : ((scalarMul c (avg_pool (t.expandDims 0) (1 :: w) (1 :: s)
      pt)).squeezeAt 0).shape = poolOutShape pt t.shape w s := by
    show removeAt 0 (poolOutShape pt (1 :: t.shape) (1 :: w) (1 :: s)) = _
    rw [poolOutShape_cons_one]
    rfl
  refine teq_of_pointwise hsh (fun idx _ => ?_)
  show (avg_pool (t.expandDims 0) (1 :: w) (1 :: s) pt).data (0 :: idx) * c =
    (avg_pool t w s pt).data idx * c
  rw [avg_pool_data_cons_one]

theorem teq_pool_both (t : Tensor ℚ) (w s : List Nat) (pt : PadType) (c : ℚ)
    (hw : w.length = t.shape.length) (hs : s.length = t.shape.length) :
    Teq (((scalarMul c (avg_pool ((t.expandDims 0).expandLast) ((1 :: w) ++ [1])
        ((1 :: s) ++ [1]) pt)).squeezeAt 0).squeezeLast)
      (scalarMul c (avg_pool t w s pt)) := by
  have hsh : (((scalarMul c (avg_pool ((t.expandDims 0).expandLast)
      ((1 :: w) ++ [1]) ((1 :: s) ++ [1]) pt)).squeezeAt 0).squeezeLast).shape =
      poolOutShape pt t.shape w s := by
    show (removeAt 0 (poolOutShape pt (1 :: (t.shape ++ [1])) (1 :: (w ++ [1]))
      (1 :: (s ++ [1])))).dropLast = _
    rw [poolOutShape_cons_one]
    show (poolOutShape pt (t.shape ++ [1]) (w ++ [1]) (s ++ [1])).dropLast = _
    rw [poolOutShape_append_one pt t.shape w s hw hs]
    simp
  refine teq_of_pointwise hsh (fun idx hidx => ?_)
  have hi : idx.length = t.shape.length := by
    have h1 := length_of_mem_enumIdx hidx
    rw [hsh, poolOutShape_length pt t.shape w s hw hs] at h1
    exact h1
  show (avg_pool ((t.expandDims 0).expandLast) (1 :: (w ++ [1]))
      (1 :: (s ++ [1])) pt).data (0 :: (idx ++ [0])) * c =
    (avg_pool t w s pt).data idx * c
  refine congrArg (· * c) ?_
  calc (avg_pool ((t.expandDims 0).expandLast) (1 :: (w ++ [1]))
      (1 :: (s ++ [1])) pt).data (0 :: (idx ++ [0]))
      = (avg_pool (t.expandLast.expandDims 0) (1 :: (w ++ [1]))
          (1 :: (s ++ [1])) pt).data (0 :: (idx ++ [0])) := by
        rw [expand_comm]
    _ = (avg_pool t.expandLast (w ++ [1]) (s ++ [1]) pt).data (idx ++ [0]) :=
        avg_pool_data_cons_one t.expandLast (w ++ [1]) (s ++ [1]) pt (idx ++ [0])
    _ = (avg_pool t w s pt).data idx :=
        avg_pool_data_append_one t w s pt idx hw hs hi

/-- **C8.** Every supported sum window reduction — floating-point operand,
unit base and window dilation, padding classifying as VALID or SAME, 1 to 3
spatial dimensions — succeeds and equals average-pooling of the operand
with the same window dimensions, strides and padding scheme, multiplied by
the number of elements in the window. -/
theorem reduce_window_sum_is_avg_pool_times_count
    (operand : Tensor ℚ) (window_dimensions window_strides : List Nat)
    (padding : List (Int × Int)) (base_dilation window_dilation : List Nat)
    (hdt : operand.dtype = .float16 ∨ operand.dtype = .float32 ∨
      operand.dtype = .float64)
    (hlw : window_dimensions.length = operand.shape.length)
    (hls : window_strides.length = operand.shape.length)
    (hb : base_dilation = List.replicate operand.shape.length 1)
    (hwdil : window_dilation = List.replicate operand.shape.length 1)
    (hpt : pads_to_padtype operand.shape window_dimensions window_strides
      padding ≠ .EXPLICIT)
    (hsp1 : 1 ≤ (operand.shape.length : Int) -
      (if window_dimensions.headD 0 = 1 then 1 else 0) -
      (if window_dimensions.getLastD 0 = 1 then 1 else 0))
    (hsp2 : (operand.shape.length : Int) -
      (if window_dimensions.headD 0 = 1 then 1 else 0) -
      (if window_dimensions.getLastD 0 = 1 then 1 else 0) ≤ 3) :
    ExceptOkP (fun r => Teq r (scalarMul ((window_dimensions.prod : Nat) : ℚ)
        (avg_pool operand window_dimensions window_strides
          (pads_to_padtype operand.shape window_dimensions window_strides
            padding))))
      (reduce_window "reduce_window_sum" operand window_dimensions
        window_strides padding base_dilation window_dilation) := by
  have hn1 : ¬ (("reduce_window_sum" : String) = "reduce_window_max" ∧
      operand.dtype ∈ [TfType.bool', .uint32, .uint64, .complex64,
        .complex128]) :=
    fun hc => absurd hc.1 (by decide)
  have hn2 : ¬ (("reduce_window_sum" : String) = "reduce_window_sum" ∧
      ¬ operand.dtype ∈ [TfType.float16, .float32, .float64]) :=
    fun hc => hc.2 (by rcases hdt with h | h | h <;> simp [h])
  have hnb : ¬ ((operand.shape.length : Int) -
      (if window_dimensions.headD 0 = 1 then 1 else 0) -
      (if window_dimensions.getLastD 0 = 1 then 1 else 0) < 1 ∨
      (operand.shape.length : Int) -
      (if window_dimensions.headD 0 = 1 then 1 else 0) -
      (if window_dimensions.getLastD 0 = 1 then 1 else 0) > 3) :=
    fun hc => hc.elim (fun hlt => absurd hsp1 (not_le.mpr hlt))
      (fun hgt => absurd hsp2 (not_le.mpr hgt))
  have hmem : operand.dtype ∈ [TfType.float16, TfType.float32,
      TfType.float64] := by
    rcases hdt with h | h | h <;> simp [h]
  simp only [reduce_window, if_neg hn1, if_neg hn2, if_neg hnb,
    if_neg (not_not_intro hb), if_neg (not_not_intro hwdil), if_neg hpt,
    if_neg (show ¬ ("reduce_window_sum" : String) = "reduce_window_max"
      from by decide),
    if_pos (show ("reduce_window_sum" : String) = "reduce_window_sum"
      from rfl), true_and, if_neg (not_not_intro hmem)]
  by_cases hbat : window_dimensions.headD 0 = 1 <;>
    by_cases hch : window_dimensions.getLastD 0 = 1 <;>
    simp only [hbat, hch, not_true, not_false_iff, if_true, if_false,
      ite_true, ite_false]
  · exact Teq.refl _
  · simp only [List.prod_append, List.prod_cons, List.prod_nil, mul_one,
      one_mul]
    exact teq_pool_batch_only operand window_dimensions window_strides _ _
      hlw hls
  · simp only [List.prod_cons, one_mul]
    exact teq_pool_channel_only operand window_dimensions window_strides _ _
  · simp only [List.prod_append, List.prod_cons, List.prod_nil, mul_one,
      one_mul]
    exact teq_pool_both operand window_dimensions window_strides _ _ hlw hls

/-- Operand for the C8 witness: 1-D length-2 float32 array `[0, 1]`. -/
def rwOperand : Tensor ℚ :=
  { shape := [2], dtype := .float32, data := fun idx => ((idx.headD 0 : Nat) : ℚ) }

/-- Witness for C8: window 2, stride 1, VALID padding on a 1-D operand. -/
theorem reduce_window_sum_is_avg_pool_times_count_witness :
    ExceptOkP (fun r => Teq r (scalarMul ((([2] : List Nat).prod : Nat) : ℚ)
        (avg_pool rwOperand [2] [1]
          (pads_to_padtype rwOperand.shape [2] [1] [(0, 0)]))))
      (reduce_window "reduce_window_sum" rwOperand [2] [1] [(0, 0)] [1] [1]) :=
  reduce_window_sum_is_avg_pool_times_count rwOperand [2] [1] [(0, 0)] [1] [1]
    (Or.inr (Or.inl rfl)) rfl rfl (by decide) (by decide) (by decide)
    (by decide) (by decide)
